import Mathlib

/-! # libdialog: typed values and column metadata

A shallow embedding of `immutable_value.h` and `column.h`.

Conventions of the embedding.

* Addresses are natural numbers; the null pointer is address `0`.
* Memory is a map from addresses to bytes; every read reduces the cell modulo 256.
* Multi-byte scalars are read little-endian, two's complement, with the LP64 widths
  `char` 1, `short` 2, `int` 4, `long` 8, `float` 4, `double` 8.
* A `double` that is only stored and copied is carried as its 64-bit IEEE-754 pattern.
* A member function that may throw returns `Except exn _`.
* A member function whose effect on its object matters returns the object after the
  call next to its result.
-/

namespace dialog

/-! ## Primitive kinds, descriptors and exceptions -/

/-- Modelled from the spec: the closed set of primitive kind tags of `data_types.h`
(boolean, char, short/int/long integers, float, double, fixed-size string, none), in the
order in which `immutable_value::to_string` switches over them. `D_UNKNOWN raw` stands for
a stored tag whose numeric value `raw` is none of the nine enumerators, the case the
`default:` label of that switch catches. -/
inductive type_id where
  | D_BOOL
  | D_CHAR
  | D_SHORT
  | D_INT
  | D_LONG
  | D_FLOAT
  | D_DOUBLE
  | D_STRING
  | D_NONE
  | D_UNKNOWN (raw : Nat)
  deriving DecidableEq, Repr

/-- Modelled from the spec: the selectors `{LT, LE, GT, GE, EQ, NEQ}` of a descriptor's
relational-operator table (`relop_id` of `data_types.h`). -/
inductive relop_id where
  | LT
  | LE
  | GT
  | GE
  | EQ
  | NEQ
  deriving DecidableEq, Repr

/-- Modelled from the spec: a type descriptor (`data_type` of `data_types.h`) is a kind tag
with a fixed byte size. -/
structure data_type where
  id : type_id
  size : Nat
  deriving DecidableEq, Repr

/-- Modelled from the spec: `data_type::operator!=`. Two descriptors are equal iff they
have the same kind and the same size. -/
def data_type.ne (a b : data_type) : Bool :=
  a.id != b.id || a.size != b.size

/-- Modelled from the spec: the descriptor of the "none" kind, which has no representation. -/
def NONE_TYPE : data_type := ⟨type_id.D_NONE, 0⟩

/-- Modelled from the spec: the descriptor of the 1-byte boolean kind. -/
def BOOL_TYPE : data_type := ⟨type_id.D_BOOL, 1⟩

/-- Modelled from the spec: the descriptor of the 1-byte char kind. -/
def CHAR_TYPE : data_type := ⟨type_id.D_CHAR, 1⟩

/-- Modelled from the spec: the descriptor of the 2-byte short kind. -/
def SHORT_TYPE : data_type := ⟨type_id.D_SHORT, 2⟩

/-- Modelled from the spec: the descriptor of the 4-byte int kind. -/
def INT_TYPE : data_type := ⟨type_id.D_INT, 4⟩

/-- Modelled from the spec: the descriptor of the 8-byte long kind. -/
def LONG_TYPE : data_type := ⟨type_id.D_LONG, 8⟩

/-- Modelled from the spec: the descriptor of the fixed-size string kind of `n` bytes. -/
def STRING_TYPE (n : Nat) : data_type := ⟨type_id.D_STRING, n⟩

/-- The two exception classes thrown by `immutable_value.h`, with their messages, and the
type error that, by the spec, the key-transform of the none kind raises. -/
inductive exn where
  | invalid_operation_exception (msg : String)
  | illegal_state_exception (msg : String)
  | type_error
  deriving DecidableEq, Repr

/-! ## Memory and typed reads -/

/-- Byte-addressed memory: the cell at every address. -/
abbrev Memory := Nat → Nat

/-- The byte stored at address `a`. -/
def load_byte (mem : Memory) (a : Nat) : Nat :=
  mem a % 256

/-- The unsigned little-endian number held by the `n` bytes starting at address `a`. -/
def load_le (mem : Memory) (a : Nat) : Nat → Nat
  | 0 => 0
  | n + 1 => load_byte mem a + 256 * load_le mem (a + 1) n

/-- Two's-complement reading of a `bits`-wide pattern. -/
def to_signed (bits : Nat) (x : Nat) : Int :=
  if x < 2 ^ (bits - 1) then (x : Int) else (x : Int) - 2 ^ bits

/-- The signed integer held by the `w` bytes at address `a`: `*reinterpret_cast<const T*>(p)`
for a signed integral `T` of `w` bytes. -/
def load_signed (mem : Memory) (a : Nat) (w : Nat) : Int :=
  to_signed (8 * w) (load_le mem a w)

/-- The value `*reinterpret_cast<const bool*>(p)` after integral promotion: the byte at `p`
zero-extended. A `bool` object holds `0` or `1`; for any other byte C++ leaves the read
undefined and the zero-extended byte is what the read yields on the usual compilers. -/
def load_bool (mem : Memory) (a : Nat) : Int :=
  (load_byte mem a : Int)

/-- The boolean stored at address `a`, when the byte there is the representation of one. -/
def stored_bool (mem : Memory) (a : Nat) : Option Bool :=
  if load_byte mem a = 0 then some false
  else if load_byte mem a = 1 then some true
  else none

/-- Memory that holds `bytes` from address `base` on and zero everywhere else. -/
def mem_of (base : Nat) (bytes : List Nat) : Memory :=
  fun a => if a < base then 0 else bytes.getD (a - base) 0

/-! ## `immutable_value` -/

/-- The class `immutable_value`: a descriptor and a non-owning pointer. -/
structure immutable_value where
  type_ : data_type
  ptr_ : Nat
  deriving DecidableEq, Repr

/-- The constructor `immutable_value(const data_type& type = NONE_TYPE)`, called without an
argument: the none descriptor and a null pointer. -/
def immutable_value.default : immutable_value :=
  { type_ := NONE_TYPE, ptr_ := 0 }

/-- The constructor `immutable_value(const data_type& type, void* data)`. -/
def immutable_value.make (type : data_type) (data : Nat) : immutable_value :=
  { type_ := type, ptr_ := data }

/-- The accessor `immutable_value::type()`. -/
def immutable_value.type (v : immutable_value) : data_type :=
  v.type_

/-- The accessor `immutable_value::ptr()`. -/
def immutable_value.ptr (v : immutable_value) : Nat :=
  v.ptr_

/-- Modelled from the spec: the view `data(ptr, size)` of `size` bytes starting at `ptr`. -/
structure data where
  ptr : Nat
  size : Nat
  deriving DecidableEq, Repr

/-- The member `immutable_value::to_data()`: the view of exactly `type_.size` bytes at `ptr_`. -/
def immutable_value.to_data (v : immutable_value) : data :=
  { ptr := v.ptr_, size := v.type_.size }

/-- A comparator of the relational-operator table: a binary predicate over two byte views. -/
abbrev comparator := Memory → data → data → Bool

/-- The relational-operator tables of `data_types.h`, taken as a parameter: `tbl t id` is
the entry `t.relop(id)` of descriptor `t`. -/
abbrev relop_table := data_type → relop_id → comparator

/-- A record of one comparator invocation: whose table, which entry, and the two views in
argument order. -/
structure comparator_call where
  type : data_type
  id : relop_id
  first : data
  second : data
  deriving DecidableEq, Repr

/-- What a comparison did: its result or exception, and the comparator invocations it made. -/
structure comparison where
  result : Except exn Bool
  calls : List comparator_call

/-- The static member `immutable_value::relop`. -/
def immutable_value.relop (tbl : relop_table) (mem : Memory) (id : relop_id)
    (first second : immutable_value) : comparison :=
  if first.type_.ne second.type_ then
    { result := Except.error (exn.invalid_operation_exception "Comparing values of different types"),
      calls := [] }
  else
    { result := Except.ok (tbl first.type_ id mem first.to_data second.to_data),
      calls := [⟨first.type_, id, first.to_data, second.to_data⟩] }

/-- The friend `operator <`. -/
def immutable_value.lt (tbl : relop_table) (mem : Memory) (first second : immutable_value) :
    comparison :=
  immutable_value.relop tbl mem relop_id.LT first second

/-- The friend `operator <=`. -/
def immutable_value.le (tbl : relop_table) (mem : Memory) (first second : immutable_value) :
    comparison :=
  immutable_value.relop tbl mem relop_id.LE first second

/-- The friend `operator >`. -/
def immutable_value.gt (tbl : relop_table) (mem : Memory) (first second : immutable_value) :
    comparison :=
  immutable_value.relop tbl mem relop_id.GT first second

/-- The friend `operator >=`. -/
def immutable_value.ge (tbl : relop_table) (mem : Memory) (first second : immutable_value) :
    comparison :=
  immutable_value.relop tbl mem relop_id.GE first second

/-- The friend `operator ==`. -/
def immutable_value.eq (tbl : relop_table) (mem : Memory) (first second : immutable_value) :
    comparison :=
  immutable_value.relop tbl mem relop_id.EQ first second

/-- The friend `operator !=`. -/
def immutable_value.neq (tbl : relop_table) (mem : Memory) (first second : immutable_value) :
    comparison :=
  immutable_value.relop tbl mem relop_id.NEQ first second

/-- The operator that `immutable_value.h` defines for each relation id. -/
def immutable_value.operator (id : relop_id) :
    relop_table → Memory → immutable_value → immutable_value → comparison :=
  match id with
  | relop_id.LT => immutable_value.lt
  | relop_id.LE => immutable_value.le
  | relop_id.GT => immutable_value.gt
  | relop_id.GE => immutable_value.ge
  | relop_id.EQ => immutable_value.eq
  | relop_id.NEQ => immutable_value.neq

/-- The native relation a relation id names, on integers. -/
def native_relation (id : relop_id) (x y : Int) : Bool :=
  match id with
  | relop_id.LT => decide (x < y)
  | relop_id.LE => decide (x ≤ y)
  | relop_id.GT => decide (x > y)
  | relop_id.GE => decide (x ≥ y)
  | relop_id.EQ => decide (x = y)
  | relop_id.NEQ => decide (x ≠ y)

/-- Modelled from the spec: the comparator-table entries of a signed integral kind of `w`
bytes, which compare the two referenced objects in the native ordering of their
representation. -/
def integral_relop (w : Nat) (id : relop_id) : comparator :=
  fun mem a b => native_relation id (load_signed mem a.ptr w) (load_signed mem b.ptr w)

/-- Modelled from the spec: a relational-operator table whose entries for the integral kinds
`short`, `int` and `long` are the native comparisons; every other entry answers `false`. -/
def integral_relops : relop_table :=
  fun t id =>
    match t.id with
    | type_id.D_SHORT => integral_relop 2 id
    | type_id.D_INT => integral_relop 4 id
    | type_id.D_LONG => integral_relop 8 id
    | _ => fun _ _ _ => false

/-! ## Textual rendering -/

/-- The overloads of `std::to_string` for signed integers: the signed decimal numeral. -/
def std_to_string (n : Int) : String :=
  toString n

/-- The text `std::to_string` produces for a `float` and for a `double`, each given by its
bit pattern; the formatting of floating-point numbers is taken as a parameter. -/
structure fp_text where
  of_float : Nat → String
  of_double : Nat → String

/-- Modelled from the spec: `immutable_byte_string(ptr, size).to_string()`, the decoded
text of the `size` bytes starting at `ptr`, one character per byte. -/
def immutable_byte_string.to_string (mem : Memory) (ptr size : Nat) : String :=
  String.mk ((List.range size).map (fun i => Char.ofNat (load_byte mem (ptr + i))))

/-- The member `immutable_value::to_string()`. -/
def immutable_value.to_string (fp : fp_text) (mem : Memory) (v : immutable_value) :
    Except exn String :=
  match v.type_.id with
  | type_id.D_BOOL => Except.ok ("bool(" ++ std_to_string (load_bool mem v.ptr_) ++ ")")
  | type_id.D_CHAR => Except.ok ("char(" ++ std_to_string (load_signed mem v.ptr_ 1) ++ ")")
  | type_id.D_SHORT => Except.ok ("short(" ++ std_to_string (load_signed mem v.ptr_ 2) ++ ")")
  | type_id.D_INT => Except.ok ("int(" ++ std_to_string (load_signed mem v.ptr_ 4) ++ ")")
  | type_id.D_LONG => Except.ok ("long(" ++ std_to_string (load_signed mem v.ptr_ 8) ++ ")")
  | type_id.D_FLOAT => Except.ok ("float(" ++ fp.of_float (load_le mem v.ptr_ 4) ++ ")")
  | type_id.D_DOUBLE => Except.ok ("double(" ++ fp.of_double (load_le mem v.ptr_ 8) ++ ")")
  | type_id.D_STRING =>
      Except.ok ("string(" ++ immutable_byte_string.to_string mem v.ptr_ v.type_.size ++ ")")
  | type_id.D_NONE => Except.ok "none()"
  | type_id.D_UNKNOWN _ => Except.error (exn.illegal_state_exception "Invalid type id")

/-! ## Indexing state -/

/-- The largest 16-bit unsigned value. -/
def UINT16_MAX : Nat := 65535

/-- A `double` that is only stored and copied: its 64-bit IEEE-754 pattern. -/
abbrev double := Nat

/-- The pattern of the `double` 2.5. -/
def double_2_5 : double := 0x4004000000000000

/-- Modelled from the spec: the three states of the indexing state machine. -/
inductive index_state where
  | UNINDEXED
  | INDEXING
  | INDEXED
  deriving DecidableEq, Repr

/-- Modelled from the spec: the class `index_state_t` of `index_state.h`, holding the state,
the index id and the bucket size. -/
structure index_state_t where
  state_ : index_state
  id_ : Nat
  bucket_size_ : double
  deriving DecidableEq, Repr

/-- Modelled from the spec: the default constructor of `index_state_t`. The initial state is
UNINDEXED and the index id is the sentinel "no index assigned", the maximum 16-bit
unsigned value. The spec leaves the initial bucket size open; it is the parameter `b0`. -/
def index_state_t.default (b0 : double) : index_state_t :=
  { state_ := index_state.UNINDEXED, id_ := UINT16_MAX, bucket_size_ := b0 }

/-- Modelled from the spec: `index_state_t::id()`, a pure observer. -/
def index_state_t.id (s : index_state_t) : Nat :=
  s.id_

/-- Modelled from the spec: `index_state_t::bucket_size()`, a pure observer. -/
def index_state_t.bucket_size (s : index_state_t) : double :=
  s.bucket_size_

/-- Modelled from the spec: `index_state_t::is_indexed()`, a pure observer. Only INDEXED
reads as indexed; INDEXING reads as not indexed. -/
def index_state_t.is_indexed (s : index_state_t) : Bool :=
  decide (s.state_ = index_state.INDEXED)

/-- Modelled from the spec: `index_state_t::set_indexing()`. It succeeds only from
UNINDEXED, moving to INDEXING; from INDEXING or INDEXED it returns false and does nothing. -/
def index_state_t.set_indexing (s : index_state_t) : Bool × index_state_t :=
  if s.state_ = index_state.UNINDEXED then
    (true, { s with state_ := index_state.INDEXING })
  else
    (false, s)

/-- Modelled from the spec: `index_state_t::set_indexed(index_id, bucket_size)`. It records
the index id (a 16-bit parameter) and the bucket size and moves to INDEXED. The spec
describes the call from INDEXING and names no guard; the model stores unconditionally. -/
def index_state_t.set_indexed (s : index_state_t) (index_id : Nat) (bucket_size : double) :
    index_state_t :=
  { s with state_ := index_state.INDEXED, id_ := index_id % 65536, bucket_size_ := bucket_size }

/-- Modelled from the spec: `index_state_t::set_unindexed()`, the unconditional reset to
UNINDEXED that clears the index id. -/
def index_state_t.set_unindexed (s : index_state_t) : index_state_t :=
  { s with state_ := index_state.UNINDEXED, id_ := UINT16_MAX }

/-- Modelled from the spec: `index_state_t::disable_indexing()`. It succeeds only from
INDEXED, moving to UNINDEXED and clearing the index id; otherwise it returns false. -/
def index_state_t.disable_indexing (s : index_state_t) : Bool × index_state_t :=
  if s.state_ = index_state.INDEXED then
    (true, { s with state_ := index_state.UNINDEXED, id_ := UINT16_MAX })
  else
    (false, s)

/-! ## Columns, fields and snapshots -/

/-- Modelled from the spec: the mutable view `mutable_value` of `mutable_value.h`, a
descriptor and a pointer; a column only stores and returns it. -/
structure mutable_value where
  type_ : data_type
  ptr_ : Nat
  deriving DecidableEq, Repr

/-- Modelled from the spec: a default-constructed `mutable_value`, of the none kind. -/
def mutable_value.default : mutable_value :=
  { type_ := NONE_TYPE, ptr_ := 0 }

/-- Modelled from the spec: the record `column_snapshot` of `column_snapshot.h`, a flat copy
of `{type, offset, is_indexed, index_id, bucket_size}`, in the order of the aggregate
initialiser in `column_t::snapshot`. -/
structure column_snapshot where
  type : data_type
  offset : Nat
  is_indexed : Bool
  index_id : Nat
  bucket_size : double
  deriving DecidableEq, Repr

/-- Modelled from the spec: the class `field_t` of `field.h`, a value at a fixed position
with a copy of its column's `idx`, indexing flag, index id and bucket size. -/
structure field_t where
  idx_ : Nat
  value_ : immutable_value
  indexed_ : Bool
  index_id_ : Nat
  index_bucket_size_ : double
  deriving DecidableEq, Repr

/-- Modelled from the spec: the constructor
`field_t(idx, type, data, indexed, index_id, index_bucket_size)`, which stores its
arguments, the value being the pair of `type` and `data`. -/
def field_t.make (idx : Nat) (type : data_type) (data : Nat) (indexed : Bool) (index_id : Nat)
    (index_bucket_size : double) : field_t :=
  { idx_ := idx, value_ := immutable_value.make type data, indexed_ := indexed,
    index_id_ := index_id, index_bucket_size_ := index_bucket_size }

/-- The function `::toupper` of the C locale on one character: the letters `a` to `z` go to
`A` to `Z`, every other character stays. -/
def toupper (c : Char) : Char :=
  Char.toUpper c

/-- Modelled from the spec: `string_utils::to_upper`, which converts every character of the
string to upper case. -/
def string_utils.to_upper (str : String) : String :=
  String.mk (str.data.map toupper)

/-- The class `column_t`. -/
structure column_t where
  idx_ : Nat
  type_ : data_type
  offset_ : Nat
  name_ : String
  min_ : mutable_value
  max_ : mutable_value
  idx_state_ : index_state_t
  deriving DecidableEq, Repr

/-- The default constructor `column_t()`. The members it does not name are default
constructed; `b0` is the initial bucket size of the indexing state. -/
def column_t.default (b0 : double) : column_t :=
  { idx_ := UINT16_MAX, type_ := NONE_TYPE, offset_ := UINT16_MAX, name_ := "",
    min_ := mutable_value.default, max_ := mutable_value.default,
    idx_state_ := index_state_t.default b0 }

/-- The constructor `column_t(idx, offset, type, name, min, max)`. `idx` and `offset` are
16-bit parameters; the indexing state is default constructed with initial bucket size `b0`. -/
def column_t.make (idx offset : Nat) (type : data_type) (name : String)
    (min max : mutable_value) (b0 : double) : column_t :=
  { idx_ := idx % 65536, type_ := type, offset_ := offset % 65536,
    name_ := string_utils.to_upper name, min_ := min, max_ := max,
    idx_state_ := index_state_t.default b0 }

/-- The accessor `column_t::name()`. -/
def column_t.name (c : column_t) : String :=
  c.name_

/-- The accessor `column_t::type()`. -/
def column_t.type (c : column_t) : data_type :=
  c.type_

/-- The accessor `column_t::offset()`. -/
def column_t.offset (c : column_t) : Nat :=
  c.offset_

/-- The accessor `column_t::idx()`. -/
def column_t.idx (c : column_t) : Nat :=
  c.idx_

/-- The accessor `column_t::min()`. -/
def column_t.min (c : column_t) : mutable_value :=
  c.min_

/-- The accessor `column_t::max()`. -/
def column_t.max (c : column_t) : mutable_value :=
  c.max_

/-- The member `column_t::index_id()`. -/
def column_t.index_id (c : column_t) : Nat :=
  c.idx_state_.id

/-- The member `column_t::index_bucket_size()`. -/
def column_t.index_bucket_size (c : column_t) : double :=
  c.idx_state_.bucket_size

/-- The member `column_t::is_indexed()`. -/
def column_t.is_indexed (c : column_t) : Bool :=
  c.idx_state_.is_indexed

/-- The member `column_t::set_indexing()`: its result and the column after the call. -/
def column_t.set_indexing (c : column_t) : Bool × column_t :=
  let r := c.idx_state_.set_indexing
  (r.1, { c with idx_state_ := r.2 })

/-- The member `column_t::set_indexed(index_id, bucket_size)`: the column after the call. -/
def column_t.set_indexed (c : column_t) (index_id : Nat) (bucket_size : double) : column_t :=
  { c with idx_state_ := c.idx_state_.set_indexed index_id bucket_size }

/-- The member `column_t::set_unindexed()`: the column after the call. -/
def column_t.set_unindexed (c : column_t) : column_t :=
  { c with idx_state_ := c.idx_state_.set_unindexed }

/-- The member `column_t::disable_indexing()`: its result and the column after the call. -/
def column_t.disable_indexing (c : column_t) : Bool × column_t :=
  let r := c.idx_state_.disable_indexing
  (r.1, { c with idx_state_ := r.2 })

/-- The member `column_t::apply(data)`: the field it returns, with the column and the memory
after the call. -/
def column_t.apply (c : column_t) (mem : Memory) (data : Nat) : field_t × column_t × Memory :=
  (field_t.make c.idx_ c.type_ (data + c.offset_) c.is_indexed c.idx_state_.id
      c.idx_state_.bucket_size,
    c, mem)

/-- The member `column_t::snapshot()`: the snapshot it returns, with the column after the
call. -/
def column_t.snapshot (c : column_t) : column_snapshot × column_t :=
  ({ type := c.type_, offset := c.offset_, is_indexed := c.is_indexed,
     index_id := c.index_id, bucket_size := c.index_bucket_size },
    c)

/-- One call of a member of `column_t` that can change the column. -/
inductive column_op where
  | set_indexing
  | set_indexed (index_id : Nat) (bucket_size : double)
  | set_unindexed
  | disable_indexing
  deriving DecidableEq, Repr

/-- The column after one mutating call. -/
def column_t.exec (c : column_t) : column_op → column_t
  | column_op.set_indexing => c.set_indexing.2
  | column_op.set_indexed index_id bucket_size => c.set_indexed index_id bucket_size
  | column_op.set_unindexed => c.set_unindexed
  | column_op.disable_indexing => c.disable_indexing.2

/-- A reader that keeps a snapshot next to the live column: the live column and the
snapshot taken from it earlier. -/
structure reader where
  live : column_t
  held : column_snapshot
  deriving DecidableEq, Repr

/-- The reader that takes a snapshot of the column now. -/
def reader.take (c : column_t) : reader :=
  { live := c.snapshot.2, held := c.snapshot.1 }

/-- One mutating call on the live column of a reader. -/
def reader.step (r : reader) (op : column_op) : reader :=
  { r with live := r.live.exec op }

/-- A sequence of mutating calls on the live column of a reader, in order. -/
def reader.run (r : reader) (ops : List column_op) : reader :=
  ops.foldl reader.step r

/-- The column after `set_indexing()` followed by `set_indexed(index_id, bucket_size)`. -/
def column_t.build_index (c : column_t) (index_id : Nat) (bucket_size : double) : column_t :=
  c.set_indexing.2.set_indexed index_id bucket_size

/-- Two characters differ at most in letter case: they are equal, or both are letters of
`A` to `Z`, `a` to `z` and their codes lie 32 apart. -/
def char_differs_only_in_case (x y : Char) : Bool :=
  x == y || (x.isAlpha && y.isAlpha && (x.toNat + 32 == y.toNat || y.toNat + 32 == x.toNat))

/-- Two character sequences of the same length differ at most in letter case, position by
position. -/
def chars_differ_only_in_case : List Char → List Char → Bool
  | [], [] => true
  | x :: xs, y :: ys => char_differs_only_in_case x y && chars_differ_only_in_case xs ys
  | _, _ => false

/-- Two names differ at most in letter case. -/
def differ_only_in_case (a b : String) : Bool :=
  chars_differ_only_in_case a.data b.data

/-! ## Key derivation -/

/-- Modelled from the spec: a `byte_string`, an ordered sequence of bytes used as an index
key. -/
abbrev byte_string := List Nat

/-- A key-transform: from a byte view and a bucket size to a key, or an exception. -/
abbrev key_op := Memory → data → double → Except exn byte_string

/-- Modelled from the spec: `data_type::keytransform()`, the key-transform of a descriptor.
The none kind has no representation to key, and its key-transform fails with the type
error; the key-transforms of the other kinds are the parameter `ops`. -/
def data_type.keytransform (ops : type_id → key_op) (t : data_type) : key_op :=
  match t.id with
  | type_id.D_NONE => fun _ _ _ => Except.error exn.type_error
  | k => ops k

/-- The member `immutable_value::to_key(bucket_size)`. -/
def immutable_value.to_key (ops : type_id → key_op) (mem : Memory) (v : immutable_value)
    (bucket_size : double) : Except exn byte_string :=
  v.type_.keytransform ops mem v.to_data bucket_size

/-- A key-transform table whose every entry returns the bytes of the view, in order. -/
def raw_key_ops : type_id → key_op :=
  fun _ mem d _ => Except.ok ((List.range d.size).map (fun i => load_byte mem (d.ptr + i)))

/-! ## Spellings of the kinds -/

/-- The fixed spelling of each of the nine kinds in the textual rendering; a tag outside
the nine kinds has none. -/
def type_id.spelling : type_id → Option String
  | type_id.D_BOOL => some "bool"
  | type_id.D_CHAR => some "char"
  | type_id.D_SHORT => some "short"
  | type_id.D_INT => some "int"
  | type_id.D_LONG => some "long"
  | type_id.D_FLOAT => some "float"
  | type_id.D_DOUBLE => some "double"
  | type_id.D_STRING => some "string"
  | type_id.D_NONE => some "none"
  | type_id.D_UNKNOWN _ => none

/-- The nine known kinds. -/
def known_kinds : List type_id :=
  [type_id.D_BOOL, type_id.D_CHAR, type_id.D_SHORT, type_id.D_INT, type_id.D_LONG,
   type_id.D_FLOAT, type_id.D_DOUBLE, type_id.D_STRING, type_id.D_NONE]

/-- The part of a text before its first opening parenthesis. -/
def up_to_paren (s : String) : String :=
  String.mk (s.data.takeWhile (fun c => c != '('))

/-- A text is a decimal numeral: one or more digits, with an optional leading minus sign. -/
def is_decimal_numeral (s : String) : Bool :=
  match s.data with
  | '-' :: ds => !ds.isEmpty && ds.all Char.isDigit
  | ds => !ds.isEmpty && ds.all Char.isDigit

/-! ## Sequences of mutating calls -/

/-- The column after a sequence of mutating calls, in order. -/
def column_t.run (c : column_t) (ops : List column_op) : column_t :=
  ops.foldl column_t.exec c

/-! ## Relational operators -/

/-- The descriptor test of `relop` fires exactly when the kinds or the sizes differ. -/
theorem data_type.ne_iff (a b : data_type) :
    a.ne b = true ↔ (a.id ≠ b.id ∨ a.size ≠ b.size) := by
  simp [data_type.ne]

/-- Every operator is `relop` at its own relation id. -/
theorem immutable_value.operator_eq_relop (id : relop_id) (tbl : relop_table) (mem : Memory)
    (a b : immutable_value) :
    immutable_value.operator id tbl mem a b = immutable_value.relop tbl mem id a b := by
  cases id <;> rfl

/-- On differing descriptors `relop` throws and calls nothing. -/
theorem immutable_value.relop_of_ne (tbl : relop_table) (mem : Memory) (id : relop_id)
    (a b : immutable_value) (h : a.type_.id ≠ b.type_.id ∨ a.type_.size ≠ b.type_.size) :
    immutable_value.relop tbl mem id a b =
      { result := Except.error
          (exn.invalid_operation_exception "Comparing values of different types"),
        calls := [] } := by
  have hne : a.type_.ne b.type_ = true := (data_type.ne_iff _ _).2 h
  simp [immutable_value.relop, hne]

/-- On equal descriptors `relop` returns the table entry applied to the two views. -/
theorem immutable_value.relop_of_eq (tbl : relop_table) (mem : Memory) (id : relop_id)
    (a b : immutable_value) (h : a.type_.id = b.type_.id ∧ a.type_.size = b.type_.size) :
    immutable_value.relop tbl mem id a b =
      { result := Except.ok (tbl a.type_ id mem ⟨a.ptr_, a.type_.size⟩ ⟨b.ptr_, b.type_.size⟩),
        calls := [⟨a.type_, id, ⟨a.ptr_, a.type_.size⟩, ⟨b.ptr_, b.type_.size⟩⟩] } := by
  have hne : a.type_.ne b.type_ = false := by
    simp [data_type.ne, h.1, h.2]
  simp [immutable_value.relop, hne, immutable_value.to_data]

/-- C1: for every relation id and every two values whose descriptors differ (in kind or in
size), `relop` and the operator of that relation fail with the invalid-operation exception
and invoke no comparator; for every two values with equal descriptors neither raises an
invalid-operation exception. -/
theorem relop_throws_iff_descriptors_differ (tbl : relop_table) (mem : Memory)
    (a b : immutable_value) :
    ((a.type_.id ≠ b.type_.id ∨ a.type_.size ≠ b.type_.size) →
      ∀ id : relop_id,
        (immutable_value.relop tbl mem id a b).result =
            Except.error (exn.invalid_operation_exception "Comparing values of different types")
          ∧ (immutable_value.relop tbl mem id a b).calls = []
          ∧ (immutable_value.operator id tbl mem a b).result =
            Except.error (exn.invalid_operation_exception "Comparing values of different types")
          ∧ (immutable_value.operator id tbl mem a b).calls = [])
    ∧ ((a.type_.id = b.type_.id ∧ a.type_.size = b.type_.size) →
      ∀ (id : relop_id) (msg : String),
        (immutable_value.relop tbl mem id a b).result ≠
            Except.error (exn.invalid_operation_exception msg)
          ∧ (immutable_value.operator id tbl mem a b).result ≠
            Except.error (exn.invalid_operation_exception msg)) := by
  constructor
  · intro h id
    rw [immutable_value.operator_eq_relop, immutable_value.relop_of_ne tbl mem id a b h]
    exact ⟨rfl, rfl, rfl, rfl⟩
  · intro h id msg
    rw [immutable_value.operator_eq_relop, immutable_value.relop_of_eq tbl mem id a b h]
    constructor <;> intro hc <;> cases hc

/-- C1 at concrete values: an `int` against a `long`, two strings of sizes 2 and 3, and an
`int` against an `int`. -/
theorem relop_throws_iff_descriptors_differ_witness :
    (∀ id : relop_id,
        (immutable_value.relop integral_relops (mem_of 100 [10, 0, 0, 0, 20, 0, 0, 0]) id
            ⟨INT_TYPE, 100⟩ ⟨LONG_TYPE, 100⟩).result =
            Except.error (exn.invalid_operation_exception "Comparing values of different types")
          ∧ (immutable_value.relop integral_relops (mem_of 100 [10, 0, 0, 0, 20, 0, 0, 0]) id
            ⟨INT_TYPE, 100⟩ ⟨LONG_TYPE, 100⟩).calls = []
          ∧ (immutable_value.operator id integral_relops (mem_of 100 [10, 0, 0, 0, 20, 0, 0, 0])
            ⟨INT_TYPE, 100⟩ ⟨LONG_TYPE, 100⟩).result =
            Except.error (exn.invalid_operation_exception "Comparing values of different types")
          ∧ (immutable_value.operator id integral_relops (mem_of 100 [10, 0, 0, 0, 20, 0, 0, 0])
            ⟨INT_TYPE, 100⟩ ⟨LONG_TYPE, 100⟩).calls = [])
    ∧ (∀ id : relop_id,
        (immutable_value.operator id integral_relops (mem_of 100 [65, 66, 67]) ⟨STRING_TYPE 2, 100⟩
            ⟨STRING_TYPE 3, 100⟩).result =
            Except.error (exn.invalid_operation_exception "Comparing values of different types"))
    ∧ (∀ (id : relop_id) (msg : String),
        (immutable_value.relop integral_relops (mem_of 100 [10, 0, 0, 0, 20, 0, 0, 0]) id
            ⟨INT_TYPE, 100⟩ ⟨INT_TYPE, 104⟩).result ≠
            Except.error (exn.invalid_operation_exception msg)
          ∧ (immutable_value.operator id integral_relops (mem_of 100 [10, 0, 0, 0, 20, 0, 0, 0])
            ⟨INT_TYPE, 100⟩ ⟨INT_TYPE, 104⟩).result ≠
            Except.error (exn.invalid_operation_exception msg)) :=
  ⟨(relop_throws_iff_descriptors_differ integral_relops (mem_of 100 [10, 0, 0, 0, 20, 0, 0, 0])
      ⟨INT_TYPE, 100⟩ ⟨LONG_TYPE, 100⟩).1 (Or.inl (by decide)),
   fun id => ((relop_throws_iff_descriptors_differ integral_relops (mem_of 100 [65, 66, 67])
      ⟨STRING_TYPE 2, 100⟩ ⟨STRING_TYPE 3, 100⟩).1 (Or.inr (by decide)) id).2.2.1,
   (relop_throws_iff_descriptors_differ integral_relops (mem_of 100 [10, 0, 0, 0, 20, 0, 0, 0])
      ⟨INT_TYPE, 100⟩ ⟨INT_TYPE, 104⟩).2 ⟨rfl, rfl⟩⟩

/-- C2: for every two values with the same descriptor, each operator returns exactly the
descriptor's comparator-table entry for its own relation (`<` is LT, `<=` is LE, `>` is GT,
`>=` is GE, `==` is EQ, `!=` is NEQ), invoked once on the first operand's and then the
second operand's `type.size`-byte view; hence, whenever the table's entries for the `int`
descriptor are the native integer comparisons, every operator on two `int` values returns
the native relation between the two stored integers. -/
theorem operators_return_comparator_entry (tbl : relop_table) (mem : Memory)
    (a b : immutable_value) (h : a.type_.id = b.type_.id ∧ a.type_.size = b.type_.size) :
    immutable_value.lt tbl mem a b =
        { result := Except.ok
            (tbl a.type_ relop_id.LT mem ⟨a.ptr_, a.type_.size⟩ ⟨b.ptr_, b.type_.size⟩),
          calls := [⟨a.type_, relop_id.LT, ⟨a.ptr_, a.type_.size⟩, ⟨b.ptr_, b.type_.size⟩⟩] }
    ∧ immutable_value.le tbl mem a b =
        { result := Except.ok
            (tbl a.type_ relop_id.LE mem ⟨a.ptr_, a.type_.size⟩ ⟨b.ptr_, b.type_.size⟩),
          calls := [⟨a.type_, relop_id.LE, ⟨a.ptr_, a.type_.size⟩, ⟨b.ptr_, b.type_.size⟩⟩] }
    ∧ immutable_value.gt tbl mem a b =
        { result := Except.ok
            (tbl a.type_ relop_id.GT mem ⟨a.ptr_, a.type_.size⟩ ⟨b.ptr_, b.type_.size⟩),
          calls := [⟨a.type_, relop_id.GT, ⟨a.ptr_, a.type_.size⟩, ⟨b.ptr_, b.type_.size⟩⟩] }
    ∧ immutable_value.ge tbl mem a b =
        { result := Except.ok
            (tbl a.type_ relop_id.GE mem ⟨a.ptr_, a.type_.size⟩ ⟨b.ptr_, b.type_.size⟩),
          calls := [⟨a.type_, relop_id.GE, ⟨a.ptr_, a.type_.size⟩, ⟨b.ptr_, b.type_.size⟩⟩] }
    ∧ immutable_value.eq tbl mem a b =
        { result := Except.ok
            (tbl a.type_ relop_id.EQ mem ⟨a.ptr_, a.type_.size⟩ ⟨b.ptr_, b.type_.size⟩),
          calls := [⟨a.type_, relop_id.EQ, ⟨a.ptr_, a.type_.size⟩, ⟨b.ptr_, b.type_.size⟩⟩] }
    ∧ immutable_value.neq tbl mem a b =
        { result := Except.ok
            (tbl a.type_ relop_id.NEQ mem ⟨a.ptr_, a.type_.size⟩ ⟨b.ptr_, b.type_.size⟩),
          calls := [⟨a.type_, relop_id.NEQ, ⟨a.ptr_, a.type_.size⟩, ⟨b.ptr_, b.type_.size⟩⟩] }
    ∧ (a.type_ = INT_TYPE → (∀ id, tbl INT_TYPE id = integral_relop 4 id) →
        (immutable_value.lt tbl mem a b).result =
            Except.ok (decide (load_signed mem a.ptr_ 4 < load_signed mem b.ptr_ 4))
        ∧ (immutable_value.le tbl mem a b).result =
            Except.ok (decide (load_signed mem a.ptr_ 4 ≤ load_signed mem b.ptr_ 4))
        ∧ (immutable_value.gt tbl mem a b).result =
            Except.ok (decide (load_signed mem a.ptr_ 4 > load_signed mem b.ptr_ 4))
        ∧ (immutable_value.ge tbl mem a b).result =
            Except.ok (decide (load_signed mem a.ptr_ 4 ≥ load_signed mem b.ptr_ 4))
        ∧ (immutable_value.eq tbl mem a b).result =
            Except.ok (decide (load_signed mem a.ptr_ 4 = load_signed mem b.ptr_ 4))
        ∧ (immutable_value.neq tbl mem a b).result =
            Except.ok (decide (load_signed mem a.ptr_ 4 ≠ load_signed mem b.ptr_ 4))) := by
  refine ⟨?_, ?_, ?_, ?_, ?_, ?_, ?_⟩
  · exact immutable_value.relop_of_eq tbl mem relop_id.LT a b h
  · exact immutable_value.relop_of_eq tbl mem relop_id.LE a b h
  · exact immutable_value.relop_of_eq tbl mem relop_id.GT a b h
  · exact immutable_value.relop_of_eq tbl mem relop_id.GE a b h
  · exact immutable_value.relop_of_eq tbl mem relop_id.EQ a b h
  · exact immutable_value.relop_of_eq tbl mem relop_id.NEQ a b h
  · intro hint htbl
    simp only [immutable_value.lt, immutable_value.le, immutable_value.gt, immutable_value.ge,
      immutable_value.eq, immutable_value.neq, immutable_value.relop_of_eq tbl mem _ a b h,
      hint, htbl, integral_relop, native_relation]
    simp

/-- C2 at concrete values: with 10 stored at address 100 and 20 at address 104,
`int 10 < int 20` is true and `int 20 < int 10` is false, and `<` invokes the LT entry once
on the views `(100, 4)` and `(104, 4)` in that order. -/
theorem operators_return_comparator_entry_witness :
    (immutable_value.lt integral_relops (mem_of 100 [10, 0, 0, 0, 20, 0, 0, 0])
        ⟨INT_TYPE, 100⟩ ⟨INT_TYPE, 104⟩).result = Except.ok true
    ∧ (immutable_value.lt integral_relops (mem_of 100 [10, 0, 0, 0, 20, 0, 0, 0])
        ⟨INT_TYPE, 104⟩ ⟨INT_TYPE, 100⟩).result = Except.ok false
    ∧ (immutable_value.lt integral_relops (mem_of 100 [10, 0, 0, 0, 20, 0, 0, 0])
        ⟨INT_TYPE, 100⟩ ⟨INT_TYPE, 104⟩).calls =
        [⟨INT_TYPE, relop_id.LT, ⟨100, 4⟩, ⟨104, 4⟩⟩] :=
  ⟨((operators_return_comparator_entry integral_relops (mem_of 100 [10, 0, 0, 0, 20, 0, 0, 0])
      ⟨INT_TYPE, 100⟩ ⟨INT_TYPE, 104⟩ ⟨rfl, rfl⟩).2.2.2.2.2.2 rfl (fun _ => rfl)).1,
   ((operators_return_comparator_entry integral_relops (mem_of 100 [10, 0, 0, 0, 20, 0, 0, 0])
      ⟨INT_TYPE, 104⟩ ⟨INT_TYPE, 100⟩ ⟨rfl, rfl⟩).2.2.2.2.2.2 rfl (fun _ => rfl)).1,
   congrArg comparison.calls
     (operators_return_comparator_entry integral_relops (mem_of 100 [10, 0, 0, 0, 20, 0, 0, 0])
      ⟨INT_TYPE, 100⟩ ⟨INT_TYPE, 104⟩ ⟨rfl, rfl⟩).1⟩

/-! ## Textual rendering of integral, boolean and string values -/

/-- The decoded text of `n` bytes has `n` characters. -/
theorem immutable_byte_string.to_string_length (mem : Memory) (ptr size : Nat) :
    (immutable_byte_string.to_string mem ptr size).length = size := by
  simp [immutable_byte_string.to_string, String.length]

/-- The `i`-th character of the decoded text is the `i`-th byte of the range. -/
theorem immutable_byte_string.to_string_get (mem : Memory) (ptr size i : Nat) (h : i < size) :
    (immutable_byte_string.to_string mem ptr size).data.get? i =
      some (Char.ofNat (load_byte mem (ptr + i))) := by
  simp [immutable_byte_string.to_string, List.getElem?_map, List.getElem?_range h]

/-- C3: for every value of kind short, int or long holding the integer `n`, `to_string()`
returns the kind name, then `(`, then the signed decimal numeral of `n`, then `)`; for every
value of kind bool it returns `bool(0)` when the stored boolean is false and `bool(1)` when
it is true. -/
theorem to_string_integral_and_bool (fp : fp_text) (mem : Memory) (v : immutable_value) :
    (v.type_.id = type_id.D_SHORT → ∀ n : Int, load_signed mem v.ptr_ 2 = n →
      v.to_string fp mem = Except.ok ("short" ++ "(" ++ std_to_string n ++ ")"))
    ∧ (v.type_.id = type_id.D_INT → ∀ n : Int, load_signed mem v.ptr_ 4 = n →
      v.to_string fp mem = Except.ok ("int" ++ "(" ++ std_to_string n ++ ")"))
    ∧ (v.type_.id = type_id.D_LONG → ∀ n : Int, load_signed mem v.ptr_ 8 = n →
      v.to_string fp mem = Except.ok ("long" ++ "(" ++ std_to_string n ++ ")"))
    ∧ (v.type_.id = type_id.D_BOOL → stored_bool mem v.ptr_ = some false →
      v.to_string fp mem = Except.ok "bool(0)")
    ∧ (v.type_.id = type_id.D_BOOL → stored_bool mem v.ptr_ = some true →
      v.to_string fp mem = Except.ok "bool(1)") := by
  refine ⟨?_, ?_, ?_, ?_, ?_⟩
  · intro hk n hn
    subst hn
    simp only [immutable_value.to_string, hk]
    rfl
  · intro hk n hn
    subst hn
    simp only [immutable_value.to_string, hk]
    rfl
  · intro hk n hn
    subst hn
    simp only [immutable_value.to_string, hk]
    rfl
  · intro hk hb
    have h0 : load_byte mem v.ptr_ = 0 := by
      unfold stored_bool at hb
      by_cases h : load_byte mem v.ptr_ = 0
      · exact h
      · by_cases h1 : load_byte mem v.ptr_ = 1 <;> simp [h, h1] at hb
    simp only [immutable_value.to_string, hk, load_bool, h0]
    rfl
  · intro hk hb
    have h1 : load_byte mem v.ptr_ = 1 := by
      unfold stored_bool at hb
      by_cases h : load_byte mem v.ptr_ = 0
      · simp [h] at hb
      · by_cases h1 : load_byte mem v.ptr_ = 1
        · exact h1
        · simp [h, h1] at hb
    simp only [immutable_value.to_string, hk, load_bool, h1]
    rfl

/-- C3 at concrete values: the `int` 42 renders as `int(42)`, the `short` -2 as
`short(-2)`, the `long` 2^40 as `long(1099511627776)`, and the two booleans as `bool(0)`
and `bool(1)`. -/
theorem to_string_integral_and_bool_witness :
    immutable_value.to_string ⟨fun _ => "", fun _ => ""⟩ (mem_of 16 [42, 0, 0, 0])
        ⟨INT_TYPE, 16⟩ = Except.ok "int(42)"
    ∧ immutable_value.to_string ⟨fun _ => "", fun _ => ""⟩ (mem_of 16 [254, 255])
        ⟨SHORT_TYPE, 16⟩ = Except.ok "short(-2)"
    ∧ immutable_value.to_string ⟨fun _ => "", fun _ => ""⟩ (mem_of 16 [0, 0, 0, 0, 0, 1, 0, 0])
        ⟨LONG_TYPE, 16⟩ = Except.ok "long(1099511627776)"
    ∧ immutable_value.to_string ⟨fun _ => "", fun _ => ""⟩ (mem_of 16 [0, 1])
        ⟨BOOL_TYPE, 16⟩ = Except.ok "bool(0)"
    ∧ immutable_value.to_string ⟨fun _ => "", fun _ => ""⟩ (mem_of 16 [0, 1])
        ⟨BOOL_TYPE, 17⟩ = Except.ok "bool(1)" :=
  ⟨(to_string_integral_and_bool ⟨fun _ => "", fun _ => ""⟩ (mem_of 16 [42, 0, 0, 0])
      ⟨INT_TYPE, 16⟩).2.1 rfl 42 (by decide),
   ((to_string_integral_and_bool ⟨fun _ => "", fun _ => ""⟩ (mem_of 16 [254, 255])
      ⟨SHORT_TYPE, 16⟩).1 rfl (-2) (by decide)).trans (by rfl),
   (to_string_integral_and_bool ⟨fun _ => "", fun _ => ""⟩ (mem_of 16 [0, 0, 0, 0, 0, 1, 0, 0])
      ⟨LONG_TYPE, 16⟩).2.2.1 rfl 1099511627776 (by decide),
   (to_string_integral_and_bool ⟨fun _ => "", fun _ => ""⟩ (mem_of 16 [0, 1])
      ⟨BOOL_TYPE, 16⟩).2.2.2.1 rfl (by decide),
   (to_string_integral_and_bool ⟨fun _ => "", fun _ => ""⟩ (mem_of 16 [0, 1])
      ⟨BOOL_TYPE, 17⟩).2.2.2.2 rfl (by decide)⟩

/-- C4: for every value of the string kind whose descriptor has size `n`, `to_string()`
returns `string(` followed by the text of exactly the `n` bytes the value references (a
text of `n` characters whose `i`-th character is the byte at `ptr + i`), followed by `)`. -/
theorem to_string_string (fp : fp_text) (mem : Memory) (v : immutable_value)
    (hk : v.type_.id = type_id.D_STRING) :
    ∃ text : String,
      v.to_string fp mem = Except.ok ("string(" ++ text ++ ")")
      ∧ text.length = v.type_.size
      ∧ ∀ i, i < v.type_.size →
          text.data.get? i = some (Char.ofNat (load_byte mem (v.ptr_ + i))) := by
  refine ⟨immutable_byte_string.to_string mem v.ptr_ v.type_.size, ?_, ?_, ?_⟩
  · simp only [immutable_value.to_string, hk]
  · exact immutable_byte_string.to_string_length mem v.ptr_ v.type_.size
  · intro i hi
    exact immutable_byte_string.to_string_get mem v.ptr_ v.type_.size i hi

/-- C4 at a concrete value: the 2-byte string value over the bytes `A`, `B` (followed in
memory by `C`) renders as `string(AB)`. -/
theorem to_string_string_witness :
    (∃ text : String,
      immutable_value.to_string ⟨fun _ => "", fun _ => ""⟩ (mem_of 16 [65, 66, 67])
          ⟨STRING_TYPE 2, 16⟩ = Except.ok ("string(" ++ text ++ ")")
      ∧ text.length = 2
      ∧ ∀ i, i < 2 →
          text.data.get? i = some (Char.ofNat (load_byte (mem_of 16 [65, 66, 67]) (16 + i))))
    ∧ immutable_value.to_string ⟨fun _ => "", fun _ => ""⟩ (mem_of 16 [65, 66, 67])
          ⟨STRING_TYPE 2, 16⟩ = Except.ok "string(AB)" :=
  ⟨to_string_string ⟨fun _ => "", fun _ => ""⟩ (mem_of 16 [65, 66, 67]) ⟨STRING_TYPE 2, 16⟩ rfl,
   rfl⟩

/-! ## The indexing state of a column -/

/-- C5: starting from a column that is UNINDEXED, after `set_indexing()` followed by
`set_indexed(id, b)` the column has `is_indexed() = true`, `index_id() = id` and
`index_bucket_size() = b`; a following `disable_indexing()` returns true and leaves the
column UNINDEXED with `is_indexed() = false`; a second `disable_indexing()` returns false.
This holds for every 16-bit index id and every bucket size. -/
theorem indexing_lifecycle (c : column_t) (id : Nat) (b : double)
    (h0 : c.idx_state_.state_ = index_state.UNINDEXED) (hid : id ≤ UINT16_MAX) :
    (c.build_index id b).is_indexed = true
    ∧ (c.build_index id b).index_id = id
    ∧ (c.build_index id b).index_bucket_size = b
    ∧ (c.build_index id b).disable_indexing.1 = true
    ∧ (c.build_index id b).disable_indexing.2.idx_state_.state_ = index_state.UNINDEXED
    ∧ (c.build_index id b).disable_indexing.2.is_indexed = false
    ∧ (c.build_index id b).disable_indexing.2.disable_indexing.1 = false := by
  have hmod : id % 65536 = id := Nat.mod_eq_of_lt (by unfold UINT16_MAX at hid; omega)
  simp [column_t.build_index, column_t.set_indexing, column_t.set_indexed,
    column_t.disable_indexing, column_t.is_indexed, column_t.index_id,
    column_t.index_bucket_size, index_state_t.set_indexing, index_state_t.set_indexed,
    index_state_t.disable_indexing, index_state_t.is_indexed, index_state_t.id,
    index_state_t.bucket_size, h0, hmod]

/-- C5 at the values of the spec: index id 7 and bucket size 2.5 on a freshly constructed
column. -/
theorem indexing_lifecycle_witness :
    ((column_t.make 3 16 INT_TYPE "amount" mutable_value.default mutable_value.default 0).build_index
        7 double_2_5).is_indexed = true
    ∧ ((column_t.make 3 16 INT_TYPE "amount" mutable_value.default mutable_value.default 0).build_index
        7 double_2_5).index_id = 7
    ∧ ((column_t.make 3 16 INT_TYPE "amount" mutable_value.default mutable_value.default 0).build_index
        7 double_2_5).index_bucket_size = double_2_5
    ∧ ((column_t.make 3 16 INT_TYPE "amount" mutable_value.default mutable_value.default 0).build_index
        7 double_2_5).disable_indexing.1 = true
    ∧ ((column_t.make 3 16 INT_TYPE "amount" mutable_value.default mutable_value.default 0).build_index
        7 double_2_5).disable_indexing.2.idx_state_.state_ = index_state.UNINDEXED
    ∧ ((column_t.make 3 16 INT_TYPE "amount" mutable_value.default mutable_value.default 0).build_index
        7 double_2_5).disable_indexing.2.is_indexed = false
    ∧ ((column_t.make 3 16 INT_TYPE "amount" mutable_value.default mutable_value.default 0).build_index
        7 double_2_5).disable_indexing.2.disable_indexing.1 = false :=
  indexing_lifecycle
    (column_t.make 3 16 INT_TYPE "amount" mutable_value.default mutable_value.default 0)
    7 double_2_5 rfl (by decide)

/-- C6: `set_indexing()` returns true if and only if the column is UNINDEXED, and then the
state becomes INDEXING; when the state is INDEXING or INDEXED it returns false and leaves
the column, and so its state, index id and bucket size, unchanged. Hence of two consecutive
calls on an UNINDEXED column the first returns true and the second false, and while the
state is INDEXING `is_indexed()` is false. -/
theorem set_indexing_admission_gate (c : column_t) :
    (c.set_indexing.1 = true ↔ c.idx_state_.state_ = index_state.UNINDEXED)
    ∧ (c.idx_state_.state_ = index_state.UNINDEXED →
        c.set_indexing.2.idx_state_.state_ = index_state.INDEXING)
    ∧ (c.idx_state_.state_ = index_state.INDEXING ∨ c.idx_state_.state_ = index_state.INDEXED →
        c.set_indexing.1 = false ∧ c.set_indexing.2 = c)
    ∧ (c.idx_state_.state_ = index_state.UNINDEXED →
        c.set_indexing.1 = true ∧ c.set_indexing.2.set_indexing.1 = false)
    ∧ (c.idx_state_.state_ = index_state.INDEXING → c.is_indexed = false) := by
  refine ⟨?_, ?_, ?_, ?_, ?_⟩
  · by_cases h : c.idx_state_.state_ = index_state.UNINDEXED <;>
      simp [column_t.set_indexing, index_state_t.set_indexing, h]
  · intro h
    simp [column_t.set_indexing, index_state_t.set_indexing, h]
  · intro h
    have hne : c.idx_state_.state_ ≠ index_state.UNINDEXED := by
      rcases h with h | h <;> rw [h] <;> decide
    simp [column_t.set_indexing, index_state_t.set_indexing, hne]
  · intro h
    simp [column_t.set_indexing, index_state_t.set_indexing, h]
  · intro h
    simp [column_t.is_indexed, index_state_t.is_indexed, h]

/-- C6 on concrete columns: a freshly constructed column admits the first call and refuses
the second, reads as not indexed in between, and an indexed column refuses the call and
keeps its index id and bucket size. -/
theorem set_indexing_admission_gate_witness :
    (column_t.make 3 16 INT_TYPE "amount" mutable_value.default mutable_value.default
        0).set_indexing.2.idx_state_.state_ = index_state.INDEXING
    ∧ ((column_t.make 3 16 INT_TYPE "amount" mutable_value.default mutable_value.default
        0).set_indexing.1 = true
      ∧ (column_t.make 3 16 INT_TYPE "amount" mutable_value.default mutable_value.default
        0).set_indexing.2.set_indexing.1 = false)
    ∧ (column_t.make 3 16 INT_TYPE "amount" mutable_value.default mutable_value.default
        0).set_indexing.2.is_indexed = false
    ∧ (((column_t.make 3 16 INT_TYPE "amount" mutable_value.default mutable_value.default
        0).build_index 7 double_2_5).set_indexing.1 = false
      ∧ ((column_t.make 3 16 INT_TYPE "amount" mutable_value.default mutable_value.default
        0).build_index 7 double_2_5).set_indexing.2 =
        (column_t.make 3 16 INT_TYPE "amount" mutable_value.default mutable_value.default
        0).build_index 7 double_2_5) :=
  ⟨(set_indexing_admission_gate
      (column_t.make 3 16 INT_TYPE "amount" mutable_value.default mutable_value.default 0)).2.1 rfl,
   (set_indexing_admission_gate
      (column_t.make 3 16 INT_TYPE "amount" mutable_value.default mutable_value.default
        0)).2.2.2.1 rfl,
   (set_indexing_admission_gate
      (column_t.make 3 16 INT_TYPE "amount" mutable_value.default mutable_value.default
        0).set_indexing.2).2.2.2.2 rfl,
   (set_indexing_admission_gate
      ((column_t.make 3 16 INT_TYPE "amount" mutable_value.default mutable_value.default
        0).build_index 7 double_2_5)).2.2.1 (Or.inr rfl)⟩

/-! ## Snapshots and fields -/

/-- C7: for every column in every indexing state, `snapshot()` returns a record whose five
fields are exactly the column's `type()`, `offset()`, `is_indexed()`, `index_id()` and
`index_bucket_size()` at the moment of the call, and the call leaves the column unchanged. -/
theorem snapshot_captures_column (c : column_t) :
    c.snapshot.1.type = c.type
    ∧ c.snapshot.1.offset = c.offset
    ∧ c.snapshot.1.is_indexed = c.is_indexed
    ∧ c.snapshot.1.index_id = c.index_id
    ∧ c.snapshot.1.bucket_size = c.index_bucket_size
    ∧ c.snapshot.2 = c := by
  simp only [column_t.snapshot, column_t.type, column_t.offset, and_self]

/-- A reader after a sequence of mutating calls: the live column has run the calls, the
held snapshot is the one it held before. -/
theorem reader.run_eq (ops : List column_op) (r : reader) :
    r.run ops = { live := r.live.run ops, held := r.held } := by
  induction ops generalizing r with
  | nil => rfl
  | cons op rest ih =>
    have hrun : r.run (op :: rest) = (r.step op).run rest := rfl
    rw [hrun, ih]
    rfl

/-- After `set_indexing()` a column reads as indexed exactly when it did before the call. -/
theorem column_t.set_indexing_is_indexed (c : column_t) :
    c.set_indexing.2.is_indexed = c.is_indexed := by
  by_cases hu : c.idx_state_.state_ = index_state.UNINDEXED
  · simp [column_t.set_indexing, index_state_t.set_indexing, column_t.is_indexed,
      index_state_t.is_indexed, hu]
  · simp [column_t.set_indexing, index_state_t.set_indexing, hu]

/-- The call `set_indexing()` leaves the index id and the bucket size as they were. -/
theorem column_t.set_indexing_keeps_id (c : column_t) :
    c.set_indexing.2.index_id = c.index_id
    ∧ c.set_indexing.2.index_bucket_size = c.index_bucket_size := by
  by_cases hu : c.idx_state_.state_ = index_state.UNINDEXED
  · simp [column_t.set_indexing, index_state_t.set_indexing, column_t.index_id,
      column_t.index_bucket_size, index_state_t.id, index_state_t.bucket_size, hu]
  · simp [column_t.set_indexing, index_state_t.set_indexing, hu]

/-- The snapshot of a column after `set_indexing()`, field by field. -/
theorem column_t.snapshot_after_set_indexing (c : column_t) :
    c.set_indexing.2.snapshot.1 =
      { type := c.type, offset := c.offset, is_indexed := c.is_indexed,
        index_id := c.index_id, bucket_size := c.index_bucket_size } := by
  have h1 := column_t.set_indexing_is_indexed c
  have h2 := column_t.set_indexing_keeps_id c
  have h3 : c.set_indexing.2.snapshot.1 =
      { type := c.set_indexing.2.type, offset := c.set_indexing.2.offset,
        is_indexed := c.set_indexing.2.is_indexed, index_id := c.set_indexing.2.index_id,
        bucket_size := c.set_indexing.2.index_bucket_size } := rfl
  rw [h3, h1, h2.1, h2.2]
  rfl

/-- C8 (amended): for every column that is not INDEXED when `set_indexing()` is called, the
snapshot taken after `set_indexing()` and before `set_indexed(id, b)` is the record of the
column's type, offset, index id and bucket size with `is_indexed = false`; after the live
column has executed `set_indexed(id, b)` it reports `is_indexed() = true` and a new snapshot
of it reads indexed with the id and bucket size `b`, while the snapshot held from before is
that same record, still with `is_indexed = false`; and for every column, in any state, and
every sequence of later `set_indexing`, `set_indexed`, `set_unindexed` and
`disable_indexing` calls on it, the snapshot taken earlier is still the record of the five
values the column had when it was taken, while the live column is the column after those
calls. For every column the snapshot taken after `set_indexing()` reads indexed exactly when
the column was INDEXED before that call. -/
theorem snapshot_isolation (c : column_t) (id : Nat) (b : double)
    (h : c.is_indexed = false) :
    c.set_indexing.2.snapshot.1 =
        { type := c.type, offset := c.offset, is_indexed := false,
          index_id := c.index_id, bucket_size := c.index_bucket_size }
    ∧ (c.set_indexing.2.snapshot.2.set_indexed id b).is_indexed = true
    ∧ (c.set_indexing.2.snapshot.2.set_indexed id b).snapshot.1 =
        { type := c.type, offset := c.offset, is_indexed := true,
          index_id := id % 65536, bucket_size := b }
    ∧ (reader.take c.set_indexing.2).step (column_op.set_indexed id b) =
        { live := c.set_indexing.2.set_indexed id b,
          held := { type := c.type, offset := c.offset, is_indexed := false,
                    index_id := c.index_id, bucket_size := c.index_bucket_size } }
    ∧ (∀ ops : List column_op,
        (reader.take c.set_indexing.2).run ops =
          { live := c.set_indexing.2.run ops,
            held := { type := c.type, offset := c.offset, is_indexed := false,
                      index_id := c.index_id, bucket_size := c.index_bucket_size } })
    ∧ (∀ (c0 : column_t) (ops : List column_op),
        (reader.take c0).run ops =
          { live := c0.run ops,
            held := { type := c0.type, offset := c0.offset, is_indexed := c0.is_indexed,
                      index_id := c0.index_id, bucket_size := c0.index_bucket_size } })
    ∧ (∀ c0 : column_t, c0.set_indexing.2.snapshot.1.is_indexed = c0.is_indexed) := by
  have hsnap : c.set_indexing.2.snapshot.1 =
      { type := c.type, offset := c.offset, is_indexed := false,
        index_id := c.index_id, bucket_size := c.index_bucket_size } := by
    rw [column_t.snapshot_after_set_indexing, h]
  have htake : reader.take c.set_indexing.2 =
      { live := c.set_indexing.2,
        held := { type := c.type, offset := c.offset, is_indexed := false,
                  index_id := c.index_id, bucket_size := c.index_bucket_size } } := by
    have h0 : reader.take c.set_indexing.2 =
        { live := c.set_indexing.2, held := c.set_indexing.2.snapshot.1 } := rfl
    rw [h0, hsnap]
  have hframe : (c.set_indexing.2.set_indexed id b).type = c.type
      ∧ (c.set_indexing.2.set_indexed id b).offset = c.offset := by
    by_cases hu : c.idx_state_.state_ = index_state.UNINDEXED
    · simp [column_t.set_indexing, index_state_t.set_indexing, column_t.set_indexed,
        column_t.type, column_t.offset, hu]
    · simp [column_t.set_indexing, index_state_t.set_indexing, column_t.set_indexed,
        column_t.type, column_t.offset, hu]
  refine ⟨hsnap, rfl, ?_, ?_, ?_, ?_, ?_⟩
  · have h3 : (c.set_indexing.2.snapshot.2.set_indexed id b).snapshot.1 =
        { type := (c.set_indexing.2.set_indexed id b).type,
          offset := (c.set_indexing.2.set_indexed id b).offset,
          is_indexed := true, index_id := id % 65536, bucket_size := b } := rfl
    rw [h3, hframe.1, hframe.2]
  · rw [htake]
    rfl
  · intro ops
    rw [reader.run_eq, htake]
  · intro c0 ops
    rw [reader.run_eq]
    rfl
  · intro c0
    rw [column_t.snapshot_after_set_indexing]

/-- C8 (amended) on a freshly constructed column, with index id 7 and bucket size 2.5: the
snapshot taken between the two calls reads not indexed, with the sentinel id, and is the
one still held after `set_indexed(7, 2.5)`, when the live column reads indexed. -/
theorem snapshot_isolation_witness :
    (column_t.make 3 16 INT_TYPE "amount" mutable_value.default mutable_value.default
        0).set_indexing.2.snapshot.1 =
        { type := INT_TYPE, offset := 16, is_indexed := false, index_id := 65535,
          bucket_size := 0 }
    ∧ ((column_t.make 3 16 INT_TYPE "amount" mutable_value.default mutable_value.default
        0).set_indexing.2.snapshot.2.set_indexed 7 double_2_5).snapshot.1 =
        { type := INT_TYPE, offset := 16, is_indexed := true, index_id := 7,
          bucket_size := double_2_5 }
    ∧ ((reader.take (column_t.make 3 16 INT_TYPE "amount" mutable_value.default
        mutable_value.default 0).set_indexing.2).step
          (column_op.set_indexed 7 double_2_5)).held =
        { type := INT_TYPE, offset := 16, is_indexed := false, index_id := 65535,
          bucket_size := 0 }
    ∧ ((reader.take (column_t.make 3 16 INT_TYPE "amount" mutable_value.default
        mutable_value.default 0).set_indexing.2).step
          (column_op.set_indexed 7 double_2_5)).live.is_indexed = true :=
  ⟨(snapshot_isolation
      (column_t.make 3 16 INT_TYPE "amount" mutable_value.default mutable_value.default 0)
      7 double_2_5 rfl).1.trans (by decide),
   (snapshot_isolation
      (column_t.make 3 16 INT_TYPE "amount" mutable_value.default mutable_value.default 0)
      7 double_2_5 rfl).2.2.1.trans (by decide),
   (congrArg reader.held (snapshot_isolation
      (column_t.make 3 16 INT_TYPE "amount" mutable_value.default mutable_value.default 0)
      7 double_2_5 rfl).2.2.2.1).trans (by decide),
   (congrArg (fun r => r.live.is_indexed) (snapshot_isolation
      (column_t.make 3 16 INT_TYPE "amount" mutable_value.default mutable_value.default 0)
      7 double_2_5 rfl).2.2.2.1).trans (by decide)⟩

/-- C8 as stated fails on a column that is already INDEXED: on the column built with index
id 7 and bucket size 2.5, `set_indexing()` returns false and changes nothing, and the
snapshot taken after it, before any further `set_indexed`, has `is_indexed = true`; so it
is not the case that for every column that snapshot has `is_indexed = false`. -/
theorem snapshot_isolation_counterexample :
    ((column_t.make 3 16 INT_TYPE "amount" mutable_value.default mutable_value.default
        0).build_index 7 double_2_5).set_indexing.1 = false
    ∧ ((column_t.make 3 16 INT_TYPE "amount" mutable_value.default mutable_value.default
        0).build_index 7 double_2_5).set_indexing.2.snapshot.1 =
        { type := INT_TYPE, offset := 16, is_indexed := true, index_id := 7,
          bucket_size := double_2_5 }
    ∧ (reader.take ((column_t.make 3 16 INT_TYPE "amount" mutable_value.default
        mutable_value.default 0).build_index 7 double_2_5).set_indexing.2).held.is_indexed = true
    ∧ ((reader.take ((column_t.make 3 16 INT_TYPE "amount" mutable_value.default
        mutable_value.default 0).build_index 7 double_2_5).set_indexing.2).step
          (column_op.set_indexed 9 double_2_5)).held.is_indexed = true
    ∧ ¬ (∀ c : column_t, c.set_indexing.2.snapshot.1.is_indexed = false) := by
  refine ⟨by decide, by decide, by decide, by decide, ?_⟩
  intro hall
  have hc := hall ((column_t.make 3 16 INT_TYPE "amount" mutable_value.default
    mutable_value.default 0).build_index 7 double_2_5)
  revert hc
  decide

/-- C9: for every column and every record-buffer address, `apply(buffer)` returns a field
whose column index is the column's `idx()`, whose type is the column's `type()`, whose
referenced position is `buffer + offset()` with no bounds check, and whose indexing flag,
index id and bucket size are the column's `is_indexed()`, `index_id()` and
`index_bucket_size()` at the moment of the call; the call changes neither the column nor
the memory, and a constructed column's offset is a 16-bit value. -/
theorem apply_projects_field (c : column_t) (mem : Memory) (buffer : Nat) :
    (c.apply mem buffer).1.idx_ = c.idx
    ∧ (c.apply mem buffer).1.value_.type = c.type
    ∧ (c.apply mem buffer).1.value_.ptr = buffer + c.offset
    ∧ (c.apply mem buffer).1.indexed_ = c.is_indexed
    ∧ (c.apply mem buffer).1.index_id_ = c.index_id
    ∧ (c.apply mem buffer).1.index_bucket_size_ = c.index_bucket_size
    ∧ (c.apply mem buffer).2.1 = c
    ∧ (c.apply mem buffer).2.2 = mem
    ∧ ∀ (idx offset : Nat) (type : data_type) (name : String) (min max : mutable_value)
        (b0 : double), (column_t.make idx offset type name min max b0).offset ≤ UINT16_MAX := by
  refine ⟨rfl, rfl, rfl, rfl, rfl, rfl, rfl, rfl, ?_⟩
  intro idx offset type name min max b0
  have hlt : offset % 65536 < 65536 := Nat.mod_lt _ (by decide)
  simp only [column_t.make, column_t.offset, UINT16_MAX]
  omega

/-! ## Name normalization -/

/-- The code of a character made from a small number is that number. -/
theorem toNat_ofNat_of_lt (n : Nat) (h : n < 55296) : (Char.ofNat n).toNat = n := by
  have hv : n.isValidChar := Or.inl h
  rw [Char.ofNat, dif_pos hv]
  rfl

/-- Characters with equal codes are equal. -/
theorem char_eq_of_toNat_eq (a b : Char) (h : a.toNat = b.toNat) : a = b := by
  rw [← Char.ofNat_toNat a, ← Char.ofNat_toNat b, h]

/-- A character is a lower-case letter iff its code lies in 97..122. -/
theorem isLower_iff_code (c : Char) : c.isLower = true ↔ 97 ≤ c.toNat ∧ c.toNat ≤ 122 := by
  simp [Char.isLower, Char.toNat, UInt32.le_def, Fin.le_def]
  rfl

/-- A character is an upper-case letter iff its code lies in 65..90. -/
theorem isUpper_iff_code (c : Char) : c.isUpper = true ↔ 65 ≤ c.toNat ∧ c.toNat ≤ 90 := by
  simp [Char.isUpper, Char.toNat, UInt32.le_def, Fin.le_def]
  rfl

/-- The code of `toupper c`: 32 less for the letters `a` to `z`, unchanged otherwise. -/
theorem toupper_code (c : Char) :
    (toupper c).toNat = if 97 ≤ c.toNat ∧ c.toNat ≤ 122 then c.toNat - 32 else c.toNat := by
  unfold toupper Char.toUpper
  by_cases h : 97 ≤ c.toNat ∧ c.toNat ≤ 122
  · simp only [ge_iff_le, h, and_self, if_true]
    exact toNat_ofNat_of_lt _ (by omega)
  · simp only [ge_iff_le, h, if_false]

/-- No result of `toupper` is a lower-case letter. -/
theorem toupper_not_lower (c : Char) : (toupper c).isLower = false := by
  rw [Bool.eq_false_iff]
  intro hl
  have h := (isLower_iff_code _).1 hl
  rw [toupper_code] at h
  split at h <;> omega

/-- The function `toupper` fixes every character that is not a lower-case letter. -/
theorem toupper_of_not_lower (c : Char) (h : c.isLower = false) : toupper c = c := by
  apply char_eq_of_toNat_eq
  rw [toupper_code]
  have hn : ¬ (97 ≤ c.toNat ∧ c.toNat ≤ 122) := by
    intro hc
    rw [(isLower_iff_code c).2 hc] at h
    cases h
  simp [hn]

/-- Characters that differ at most in case have the same upper-case form. -/
theorem toupper_eq_of_case (x y : Char) (h : char_differs_only_in_case x y = true) :
    toupper x = toupper y := by
  unfold char_differs_only_in_case at h
  simp only [Bool.or_eq_true, Bool.and_eq_true, beq_iff_eq, Char.isAlpha] at h
  rcases h with h | ⟨⟨hx, hy⟩, hd⟩
  · rw [h]
  · apply char_eq_of_toNat_eq
    rw [toupper_code, toupper_code]
    have hx2 : (65 ≤ x.toNat ∧ x.toNat ≤ 90) ∨ (97 ≤ x.toNat ∧ x.toNat ≤ 122) :=
      hx.imp (isUpper_iff_code x).1 (isLower_iff_code x).1
    have hy2 : (65 ≤ y.toNat ∧ y.toNat ≤ 90) ∨ (97 ≤ y.toNat ∧ y.toNat ≤ 122) :=
      hy.imp (isUpper_iff_code y).1 (isLower_iff_code y).1
    split <;> split <;> omega

/-- Sequences that differ at most in case have the same upper-case form. -/
theorem map_toupper_eq_of_case (xs ys : List Char)
    (h : chars_differ_only_in_case xs ys = true) : xs.map toupper = ys.map toupper := by
  induction xs generalizing ys with
  | nil =>
    cases ys with
    | nil => rfl
    | cons y ys => simp [chars_differ_only_in_case] at h
  | cons x xs ih =>
    cases ys with
    | nil => simp [chars_differ_only_in_case] at h
    | cons y ys =>
      simp only [chars_differ_only_in_case, Bool.and_eq_true] at h
      simp only [List.map_cons, toupper_eq_of_case x y h.1, ih ys h.2]

/-- Converting to upper case twice is converting once. -/
theorem string_utils.to_upper_idem (str : String) :
    string_utils.to_upper (string_utils.to_upper str) = string_utils.to_upper str := by
  simp only [string_utils.to_upper, List.map_map]
  congr 1
  apply List.map_congr_left
  intro c _
  exact toupper_of_not_lower _ (toupper_not_lower c)

/-- C10: for every name given to the fully-specified constructor, `name()` returns that
name converted to upper case: character by character the letters `a` to `z` become `A` to
`Z` and every other character stays, so no lower-case letter remains; two names that differ
only in letter case yield the same `name()`; and constructing a column from an already
returned `name()` returns it unchanged. -/
theorem column_name_upper_case (idx offset : Nat) (type : data_type) (name : String)
    (min max : mutable_value) (b0 : double) :
    (column_t.make idx offset type name min max b0).name =
        String.mk (name.data.map Char.toUpper)
    ∧ (column_t.make idx offset type name min max b0).name.length = name.length
    ∧ (∀ ch, ch ∈ (column_t.make idx offset type name min max b0).name.data →
        ch.isLower = false)
    ∧ (∀ other : String, differ_only_in_case name other = true →
        (column_t.make idx offset type other min max b0).name =
          (column_t.make idx offset type name min max b0).name)
    ∧ (column_t.make idx offset type (column_t.make idx offset type name min max b0).name
          min max b0).name = (column_t.make idx offset type name min max b0).name := by
  refine ⟨rfl, ?_, ?_, ?_, ?_⟩
  · show (name.data.map toupper).length = name.data.length
    exact List.length_map _ _
  · intro ch hch
    simp only [column_t.make, column_t.name, string_utils.to_upper, List.mem_map] at hch
    obtain ⟨c, _, rfl⟩ := hch
    exact toupper_not_lower c
  · intro other hother
    simp only [column_t.make, column_t.name, string_utils.to_upper]
    rw [map_toupper_eq_of_case name.data other.data hother]
  · exact string_utils.to_upper_idem name

/-- C10 at the names of the spec: `amount`, `Amount` and `AMOUNT` all yield `AMOUNT`, and
a name with digits and an underscore keeps them. -/
theorem column_name_upper_case_witness :
    (column_t.make 3 16 INT_TYPE "amount" mutable_value.default mutable_value.default 0).name =
        "AMOUNT"
    ∧ (column_t.make 3 16 INT_TYPE "Amount" mutable_value.default mutable_value.default 0).name =
        (column_t.make 3 16 INT_TYPE "amount" mutable_value.default mutable_value.default 0).name
    ∧ (column_t.make 3 16 INT_TYPE "AMOUNT" mutable_value.default mutable_value.default 0).name =
        (column_t.make 3 16 INT_TYPE "amount" mutable_value.default mutable_value.default 0).name
    ∧ (column_t.make 3 16 INT_TYPE "AMOUNT" mutable_value.default mutable_value.default 0).name =
        "AMOUNT"
    ∧ (column_t.make 3 16 INT_TYPE "col_7b" mutable_value.default mutable_value.default 0).name =
        "COL_7B" :=
  ⟨(column_name_upper_case 3 16 INT_TYPE "amount" mutable_value.default mutable_value.default
      0).1.trans (by decide),
   (column_name_upper_case 3 16 INT_TYPE "amount" mutable_value.default mutable_value.default
      0).2.2.2.1 "Amount" (by decide),
   (column_name_upper_case 3 16 INT_TYPE "amount" mutable_value.default mutable_value.default
      0).2.2.2.1 "AMOUNT" (by decide),
   (column_name_upper_case 3 16 INT_TYPE "AMOUNT" mutable_value.default mutable_value.default
      0).1.trans (by decide),
   (column_name_upper_case 3 16 INT_TYPE "col_7b" mutable_value.default mutable_value.default
      0).1.trans (by decide)⟩

/-! ## Key derivation on the none kind -/

/-- C11: for every bucket size, `to_key(bucket_size)` on a value whose descriptor is the
none kind fails with the type error and returns no key, whatever the key-transforms of the
other kinds are. -/
theorem to_key_none_fails (ops : type_id → key_op) (mem : Memory) (v : immutable_value)
    (bucket_size : double) (h : v.type_.id = type_id.D_NONE) :
    v.to_key ops mem bucket_size = Except.error exn.type_error
    ∧ ∀ key : byte_string, v.to_key ops mem bucket_size ≠ Except.ok key := by
  have hk : v.to_key ops mem bucket_size = Except.error exn.type_error := by
    simp only [immutable_value.to_key, data_type.keytransform, h]
  refine ⟨hk, ?_⟩
  intro key hc
  rw [hk] at hc
  cases hc

/-- C11 at the default-constructed value with bucket size 2.5, next to an `int` value, for
which the same call returns the key of the table. -/
theorem to_key_none_fails_witness :
    (immutable_value.default.to_key raw_key_ops (mem_of 100 [10, 0, 0, 0]) double_2_5 =
        Except.error exn.type_error
      ∧ ∀ key : byte_string,
          immutable_value.default.to_key raw_key_ops (mem_of 100 [10, 0, 0, 0]) double_2_5 ≠
            Except.ok key)
    ∧ immutable_value.to_key raw_key_ops (mem_of 100 [10, 0, 0, 0]) ⟨INT_TYPE, 100⟩ double_2_5 =
        Except.ok [10, 0, 0, 0] :=
  ⟨to_key_none_fails raw_key_ops (mem_of 100 [10, 0, 0, 0]) immutable_value.default double_2_5 rfl,
   rfl⟩

/-! ## The rendering format of every kind -/

/-- Two kinds with the same spelling are the same kind. -/
theorem type_id.spelling_injective (a b : type_id) (name : String)
    (ha : a.spelling = some name) (hb : b.spelling = some name) : a = b := by
  cases a <;> cases b <;> simp [type_id.spelling] at ha hb <;>
    first
      | rfl
      | (exfalso; rw [← ha] at hb; revert hb; decide)

/-- A kind has a spelling iff it is one of the nine known kinds. -/
theorem type_id.spelling_isSome_iff (k : type_id) : k.spelling.isSome = true ↔ k ∈ known_kinds := by
  cases k <;> simp [type_id.spelling, known_kinds]

/-- Taking while a test holds stops at the first element that fails it. -/
theorem takeWhile_append_stop (p : Char → Bool) (xs rest : List Char) (y : Char)
    (hall : xs.all p = true) (hy : p y = false) : (xs ++ y :: rest).takeWhile p = xs := by
  induction xs with
  | nil => simp [List.takeWhile, hy]
  | cons x xs ih =>
    simp only [List.all_cons, Bool.and_eq_true] at hall
    simp [List.takeWhile, hall.1, ih hall.2]

/-- The text before the first parenthesis of `name(body)` is `name`, when `name` has no
parenthesis. -/
theorem up_to_paren_of_name (name body : String)
    (h : name.data.all (fun c => c != '(') = true) :
    up_to_paren (name ++ "(" ++ body ++ ")") = name := by
  have hd : (name ++ "(" ++ body ++ ")").data = name.data ++ '(' :: (body.data ++ [')']) := by
    simp [String.data_append]
  simp only [up_to_paren, hd]
  rw [takeWhile_append_stop _ _ _ _ h (by decide)]

/-- The rendering of a value of a known kind is the spelling, an opening parenthesis, a
body and a closing parenthesis, and the spelling is the text before the first parenthesis. -/
theorem immutable_value.to_string_shape (fp : fp_text) (mem : Memory) (v : immutable_value)
    (name : String) (h : v.type_.id.spelling = some name) :
    ∃ body : String,
      v.to_string fp mem = Except.ok (name ++ "(" ++ body ++ ")")
      ∧ up_to_paren (name ++ "(" ++ body ++ ")") = name := by
  cases hk : v.type_.id <;> rw [hk] at h <;> simp only [type_id.spelling, Option.some.injEq] at h
  case D_BOOL =>
    subst h
    refine ⟨std_to_string (load_bool mem v.ptr_), ?_, up_to_paren_of_name _ _ (by decide)⟩
    simp only [immutable_value.to_string, hk]
    rfl
  case D_CHAR =>
    subst h
    refine ⟨std_to_string (load_signed mem v.ptr_ 1), ?_, up_to_paren_of_name _ _ (by decide)⟩
    simp only [immutable_value.to_string, hk]
    rfl
  case D_SHORT =>
    subst h
    refine ⟨std_to_string (load_signed mem v.ptr_ 2), ?_, up_to_paren_of_name _ _ (by decide)⟩
    simp only [immutable_value.to_string, hk]
    rfl
  case D_INT =>
    subst h
    refine ⟨std_to_string (load_signed mem v.ptr_ 4), ?_, up_to_paren_of_name _ _ (by decide)⟩
    simp only [immutable_value.to_string, hk]
    rfl
  case D_LONG =>
    subst h
    refine ⟨std_to_string (load_signed mem v.ptr_ 8), ?_, up_to_paren_of_name _ _ (by decide)⟩
    simp only [immutable_value.to_string, hk]
    rfl
  case D_FLOAT =>
    subst h
    refine ⟨fp.of_float (load_le mem v.ptr_ 4), ?_, up_to_paren_of_name _ _ (by decide)⟩
    simp only [immutable_value.to_string, hk]
    rfl
  case D_DOUBLE =>
    subst h
    refine ⟨fp.of_double (load_le mem v.ptr_ 8), ?_, up_to_paren_of_name _ _ (by decide)⟩
    simp only [immutable_value.to_string, hk]
    rfl
  case D_STRING =>
    subst h
    refine ⟨immutable_byte_string.to_string mem v.ptr_ v.type_.size, ?_,
      up_to_paren_of_name _ _ (by decide)⟩
    simp only [immutable_value.to_string, hk]
    rfl
  case D_NONE =>
    subst h
    refine ⟨"", ?_, up_to_paren_of_name _ _ (by decide)⟩
    simp only [immutable_value.to_string, hk]
    rfl
  case D_UNKNOWN raw =>
    cases h

/-- C13: for every value whose kind is one of the nine kinds bool, char, short, int, long,
float, double, string, none, `to_string()` returns a text that begins with that kind's
fixed spelling followed by `(` and ends with `)`, the spellings being exactly `bool`,
`char`, `short`, `int`, `long`, `float`, `double`, `string`, `none`; and the renderings of
two values of distinct kinds differ in their text before the opening parenthesis. -/
theorem to_string_fixed_spelling (fp : fp_text) (mem : Memory) (v : immutable_value) :
    known_kinds.map type_id.spelling =
        [some "bool", some "char", some "short", some "int", some "long", some "float",
         some "double", some "string", some "none"]
    ∧ (v.type_.id ∈ known_kinds → ∃ name body : String,
        v.type_.id.spelling = some name
        ∧ v.to_string fp mem = Except.ok (name ++ "(" ++ body ++ ")"))
    ∧ (∀ (mem2 : Memory) (w : immutable_value) (s t : String),
        v.type_.id ∈ known_kinds → w.type_.id ∈ known_kinds → v.type_.id ≠ w.type_.id →
        v.to_string fp mem = Except.ok s → w.to_string fp mem2 = Except.ok t →
        up_to_paren s ≠ up_to_paren t) := by
  refine ⟨rfl, ?_, ?_⟩
  · intro hv
    obtain ⟨name, hname⟩ := Option.isSome_iff_exists.1 ((type_id.spelling_isSome_iff _).2 hv)
    obtain ⟨body, hbody, _⟩ := immutable_value.to_string_shape fp mem v name hname
    exact ⟨name, body, hname, hbody⟩
  · intro mem2 w s t hv hw hne hs ht heq
    obtain ⟨nv, hnv⟩ := Option.isSome_iff_exists.1 ((type_id.spelling_isSome_iff _).2 hv)
    obtain ⟨nw, hnw⟩ := Option.isSome_iff_exists.1 ((type_id.spelling_isSome_iff _).2 hw)
    obtain ⟨bv, hbv, hpv⟩ := immutable_value.to_string_shape fp mem v nv hnv
    obtain ⟨bw, hbw, hpw⟩ := immutable_value.to_string_shape fp mem2 w nw hnw
    rw [hbv] at hs
    rw [hbw] at ht
    injection hs with hs
    injection ht with ht
    rw [← hs, ← ht, hpv, hpw] at heq
    rw [heq] at hnv
    exact hne (type_id.spelling_injective _ _ nw hnv hnw)

/-- C13 at concrete values: an `int` value renders as `int(` body `)`, and its text before
the parenthesis differs from that of a string value. -/
theorem to_string_fixed_spelling_witness :
    (∃ name body : String,
        type_id.D_INT.spelling = some name
        ∧ immutable_value.to_string ⟨fun _ => "", fun _ => ""⟩ (mem_of 16 [42, 0, 0, 0])
            ⟨INT_TYPE, 16⟩ = Except.ok (name ++ "(" ++ body ++ ")"))
    ∧ up_to_paren "int(42)" ≠ up_to_paren "string(*)"
    ∧ up_to_paren "int(42)" = "int" :=
  ⟨(to_string_fixed_spelling ⟨fun _ => "", fun _ => ""⟩ (mem_of 16 [42, 0, 0, 0])
      ⟨INT_TYPE, 16⟩).2.1 (by decide),
   (to_string_fixed_spelling ⟨fun _ => "", fun _ => ""⟩ (mem_of 16 [42, 0, 0, 0])
      ⟨INT_TYPE, 16⟩).2.2 (mem_of 16 [42, 0, 0, 0]) ⟨STRING_TYPE 1, 16⟩ "int(42)" "string(*)"
      (by decide) (by decide) (by decide) rfl rfl,
   by decide⟩

/-- C14: `to_string()` fails with the illegal-state exception if and only if the value's
kind tag is outside the nine known kinds; for every value whose kind tag is one of the nine
it returns a text and raises nothing. -/
theorem to_string_illegal_state_iff (fp : fp_text) (mem : Memory) (v : immutable_value) :
    ((∃ msg : String, v.to_string fp mem = Except.error (exn.illegal_state_exception msg)) ↔
        v.type_.id ∉ known_kinds)
    ∧ (v.type_.id ∈ known_kinds → ∃ s : String, v.to_string fp mem = Except.ok s)
    ∧ (v.type_.id ∉ known_kinds →
        v.to_string fp mem = Except.error (exn.illegal_state_exception "Invalid type id")) := by
  have hok : v.type_.id ∈ known_kinds → ∃ s : String, v.to_string fp mem = Except.ok s := by
    intro hv
    obtain ⟨name, hname⟩ := Option.isSome_iff_exists.1 ((type_id.spelling_isSome_iff _).2 hv)
    obtain ⟨body, hbody, _⟩ := immutable_value.to_string_shape fp mem v name hname
    exact ⟨_, hbody⟩
  have herr : v.type_.id ∉ known_kinds →
      v.to_string fp mem = Except.error (exn.illegal_state_exception "Invalid type id") := by
    intro hv
    cases hk : v.type_.id <;> rw [hk] at hv <;>
      first
        | (exfalso; exact hv (by decide))
        | simp only [immutable_value.to_string, hk]
  refine ⟨⟨?_, fun hv => ⟨_, herr hv⟩⟩, hok, herr⟩
  rintro ⟨msg, hmsg⟩ hv
  obtain ⟨s, hs⟩ := hok hv
  rw [hs] at hmsg
  cases hmsg

/-- C14 at concrete values: a value whose tag is the unknown number 99 fails with the
illegal-state exception, and the default-constructed value returns a text. -/
theorem to_string_illegal_state_iff_witness :
    immutable_value.to_string ⟨fun _ => "", fun _ => ""⟩ (mem_of 16 [42, 0, 0, 0])
        ⟨⟨type_id.D_UNKNOWN 99, 4⟩, 16⟩ =
        Except.error (exn.illegal_state_exception "Invalid type id")
    ∧ ∃ s : String,
        immutable_value.to_string ⟨fun _ => "", fun _ => ""⟩ (mem_of 16 [42, 0, 0, 0])
          immutable_value.default = Except.ok s :=
  ⟨(to_string_illegal_state_iff ⟨fun _ => "", fun _ => ""⟩ (mem_of 16 [42, 0, 0, 0])
      ⟨⟨type_id.D_UNKNOWN 99, 4⟩, 16⟩).2.2 (by decide),
   (to_string_illegal_state_iff ⟨fun _ => "", fun _ => ""⟩ (mem_of 16 [42, 0, 0, 0])
      immutable_value.default).2.1 (by decide)⟩

/-! ## What the mutating calls leave alone -/

/-- One mutating call changes at most the indexing state of the column. -/
theorem column_t.exec_frame (c : column_t) (op : column_op) :
    ∃ s : index_state_t, c.exec op = { c with idx_state_ := s } := by
  cases op
  · exact ⟨c.idx_state_.set_indexing.2, rfl⟩
  · exact ⟨c.idx_state_.set_indexed _ _, rfl⟩
  · exact ⟨c.idx_state_.set_unindexed, rfl⟩
  · exact ⟨c.idx_state_.disable_indexing.2, rfl⟩

/-- A sequence of mutating calls changes at most the indexing state of the column. -/
theorem column_t.run_frame (ops : List column_op) (c : column_t) :
    ∃ s : index_state_t, c.run ops = { c with idx_state_ := s } := by
  induction ops generalizing c with
  | nil => exact ⟨c.idx_state_, rfl⟩
  | cons op rest ih =>
    have hrun : c.run (op :: rest) = (c.exec op).run rest := rfl
    obtain ⟨s1, h1⟩ := column_t.exec_frame c op
    obtain ⟨s2, h2⟩ := ih (c.exec op)
    refine ⟨s2, ?_⟩
    rw [hrun, h2, h1]

/-- C15: each of `set_indexing`, `set_indexed`, `set_unindexed` and `disable_indexing`
changes only the embedded indexing state, and after any sequence of them the column's
`idx()`, `type()`, `offset()`, `name()`, `min()` and `max()` are what they were before; for
a column built by the fully-specified constructor they are the constructor's 16-bit `idx`
and `offset`, its `type`, its `name` in upper case, its `min` and its `max`. -/
theorem mutators_change_only_indexing_state (c : column_t) (ops : List column_op) :
    (∀ op : column_op, ∃ s : index_state_t, c.exec op = { c with idx_state_ := s })
    ∧ (c.run ops).idx = c.idx
    ∧ (c.run ops).type = c.type
    ∧ (c.run ops).offset = c.offset
    ∧ (c.run ops).name = c.name
    ∧ (c.run ops).min = c.min
    ∧ (c.run ops).max = c.max
    ∧ (∀ (idx offset : Nat) (type : data_type) (name : String) (min max : mutable_value)
        (b0 : double), idx ≤ UINT16_MAX → offset ≤ UINT16_MAX →
        ((column_t.make idx offset type name min max b0).run ops).idx = idx
        ∧ ((column_t.make idx offset type name min max b0).run ops).type = type
        ∧ ((column_t.make idx offset type name min max b0).run ops).offset = offset
        ∧ ((column_t.make idx offset type name min max b0).run ops).name =
            string_utils.to_upper name
        ∧ ((column_t.make idx offset type name min max b0).run ops).min = min
        ∧ ((column_t.make idx offset type name min max b0).run ops).max = max) := by
  have frame : ∀ k : column_t,
      (k.run ops).idx = k.idx ∧ (k.run ops).type = k.type ∧ (k.run ops).offset = k.offset
      ∧ (k.run ops).name = k.name ∧ (k.run ops).min = k.min ∧ (k.run ops).max = k.max := by
    intro k
    obtain ⟨s, h⟩ := column_t.run_frame ops k
    rw [h]
    exact ⟨rfl, rfl, rfl, rfl, rfl, rfl⟩
  refine ⟨column_t.exec_frame c, (frame c).1, (frame c).2.1, (frame c).2.2.1, (frame c).2.2.2.1,
    (frame c).2.2.2.2.1, (frame c).2.2.2.2.2, ?_⟩
  intro idx offset type name min max b0 hidx hoff
  have hi : idx % 65536 = idx := Nat.mod_eq_of_lt (by unfold UINT16_MAX at hidx; omega)
  have ho : offset % 65536 = offset := Nat.mod_eq_of_lt (by unfold UINT16_MAX at hoff; omega)
  obtain ⟨h1, h2, h3, h4, h5, h6⟩ := frame (column_t.make idx offset type name min max b0)
  refine ⟨?_, h2, ?_, h4, h5, h6⟩
  · rw [h1]
    exact hi
  · rw [h3]
    exact ho

/-- C15 on a constructed column put through a whole build, disable and abort sequence. -/
theorem mutators_change_only_indexing_state_witness :
    ((column_t.make 3 16 INT_TYPE "amount" mutable_value.default mutable_value.default 0).run
        [column_op.set_indexing, column_op.set_indexed 7 double_2_5, column_op.disable_indexing,
         column_op.set_indexing, column_op.set_unindexed]).idx = 3
    ∧ ((column_t.make 3 16 INT_TYPE "amount" mutable_value.default mutable_value.default 0).run
        [column_op.set_indexing, column_op.set_indexed 7 double_2_5, column_op.disable_indexing,
         column_op.set_indexing, column_op.set_unindexed]).type = INT_TYPE
    ∧ ((column_t.make 3 16 INT_TYPE "amount" mutable_value.default mutable_value.default 0).run
        [column_op.set_indexing, column_op.set_indexed 7 double_2_5, column_op.disable_indexing,
         column_op.set_indexing, column_op.set_unindexed]).offset = 16
    ∧ ((column_t.make 3 16 INT_TYPE "amount" mutable_value.default mutable_value.default 0).run
        [column_op.set_indexing, column_op.set_indexed 7 double_2_5, column_op.disable_indexing,
         column_op.set_indexing, column_op.set_unindexed]).name = string_utils.to_upper "amount"
    ∧ ((column_t.make 3 16 INT_TYPE "amount" mutable_value.default mutable_value.default 0).run
        [column_op.set_indexing, column_op.set_indexed 7 double_2_5, column_op.disable_indexing,
         column_op.set_indexing, column_op.set_unindexed]).min = mutable_value.default
    ∧ ((column_t.make 3 16 INT_TYPE "amount" mutable_value.default mutable_value.default 0).run
        [column_op.set_indexing, column_op.set_indexed 7 double_2_5, column_op.disable_indexing,
         column_op.set_indexing, column_op.set_unindexed]).max = mutable_value.default :=
  (mutators_change_only_indexing_state
      (column_t.make 3 16 INT_TYPE "amount" mutable_value.default mutable_value.default 0)
      [column_op.set_indexing, column_op.set_indexed 7 double_2_5, column_op.disable_indexing,
       column_op.set_indexing, column_op.set_unindexed]).2.2.2.2.2.2.2
    3 16 INT_TYPE "amount" mutable_value.default mutable_value.default 0 (by decide) (by decide)

/-! ## The default column and the reset -/

/-- C16: a default-constructed column is the sentinel column: its `idx()` is 65535, the
maximum 16-bit unsigned value, its `offset()` is 65535, its `name()` is empty, its
`is_indexed()` is false and its `index_id()` is the sentinel 65535. -/
theorem default_column_is_sentinel (b0 : double) :
    (column_t.default b0).idx = 65535
    ∧ (column_t.default b0).offset = 65535
    ∧ (column_t.default b0).name = ""
    ∧ (column_t.default b0).is_indexed = false
    ∧ (column_t.default b0).index_id = 65535
    ∧ UINT16_MAX = 2 ^ 16 - 1
    ∧ (column_t.default b0).idx_state_.state_ = index_state.UNINDEXED := by
  refine ⟨rfl, rfl, rfl, rfl, rfl, by decide, rfl⟩

/-- C18: from every indexing state, with any index id and bucket size, after
`set_unindexed()` the column is UNINDEXED, has `is_indexed() = false` and `index_id()`
equal to the sentinel, and the next `set_indexing()` returns true and moves to INDEXING. -/
theorem set_unindexed_releases_gate (c : column_t) :
    c.set_unindexed.idx_state_.state_ = index_state.UNINDEXED
    ∧ c.set_unindexed.is_indexed = false
    ∧ c.set_unindexed.index_id = UINT16_MAX
    ∧ c.set_unindexed.set_indexing.1 = true
    ∧ c.set_unindexed.set_indexing.2.idx_state_.state_ = index_state.INDEXING
    ∧ (c.idx_state_.state_ = index_state.INDEXING → c.set_indexing.1 = false) := by
  refine ⟨rfl, rfl, rfl, rfl, rfl, ?_⟩
  intro h
  simp [column_t.set_indexing, index_state_t.set_indexing, h]

/-- C18 on a column whose build is under way: the gate is closed before the reset. -/
theorem set_unindexed_releases_gate_witness :
    (column_t.make 3 16 INT_TYPE "amount" mutable_value.default mutable_value.default
        0).set_indexing.2.set_indexing.1 = false
    ∧ (column_t.make 3 16 INT_TYPE "amount" mutable_value.default mutable_value.default
        0).set_indexing.2.set_unindexed.set_indexing.1 = true
    ∧ ((column_t.make 3 16 INT_TYPE "amount" mutable_value.default mutable_value.default
        0).build_index 7 double_2_5).set_unindexed.index_id = UINT16_MAX :=
  ⟨(set_unindexed_releases_gate
      (column_t.make 3 16 INT_TYPE "amount" mutable_value.default mutable_value.default
        0).set_indexing.2).2.2.2.2.2 rfl,
   (set_unindexed_releases_gate
      (column_t.make 3 16 INT_TYPE "amount" mutable_value.default mutable_value.default
        0).set_indexing.2).2.2.2.1,
   (set_unindexed_releases_gate
      ((column_t.make 3 16 INT_TYPE "amount" mutable_value.default mutable_value.default
        0).build_index 7 double_2_5)).2.2.1⟩

/-! ## Textual rendering of char and none values -/

/-- A one-byte signed read is the two's-complement reading of the byte. -/
theorem load_signed_one (mem : Memory) (a : Nat) :
    load_signed mem a 1 = to_signed 8 (load_byte mem a) := by
  simp [load_signed, load_le]

/-- A byte is below 256. -/
theorem load_byte_lt (mem : Memory) (a : Nat) : load_byte mem a < 256 :=
  Nat.mod_lt _ (by decide)

set_option maxRecDepth 100000 in
/-- The decimal text of every signed 8-bit value is a decimal numeral. -/
theorem signed_byte_text_is_numeral :
    ∀ b, b < 256 → is_decimal_numeral (std_to_string (to_signed 8 b)) = true := by
  decide

/-- C19: for every value of the char kind, `to_string()` renders the stored character as
its numeric code in decimal (the signed code of the byte, which for the characters 0 to 127
is the byte itself), a text of digits with an optional minus sign, and not as the character
itself: a char value holding `A`, code 65, yields `char(65)`, and no char value yields
`char(A)`. -/
theorem to_string_char_code (fp : fp_text) (mem : Memory) (v : immutable_value)
    (h : v.type_.id = type_id.D_CHAR) :
    v.to_string fp mem = Except.ok ("char(" ++ std_to_string (load_signed mem v.ptr_ 1) ++ ")")
    ∧ is_decimal_numeral (std_to_string (load_signed mem v.ptr_ 1)) = true
    ∧ (load_byte mem v.ptr_ < 128 → load_signed mem v.ptr_ 1 = (load_byte mem v.ptr_ : Int))
    ∧ (load_byte mem v.ptr_ = 65 → v.to_string fp mem = Except.ok "char(65)")
    ∧ v.to_string fp mem ≠ Except.ok "char(A)" := by
  have hs : v.to_string fp mem =
      Except.ok ("char(" ++ std_to_string (load_signed mem v.ptr_ 1) ++ ")") := by
    simp only [immutable_value.to_string, h]
  have hnum : is_decimal_numeral (std_to_string (load_signed mem v.ptr_ 1)) = true := by
    rw [load_signed_one]
    exact signed_byte_text_is_numeral _ (load_byte_lt mem v.ptr_)
  refine ⟨hs, hnum, ?_, ?_, ?_⟩
  · intro hlt
    rw [load_signed_one]
    unfold to_signed
    have h128 : (2 : Nat) ^ (8 - 1) = 128 := by decide
    rw [h128, if_pos hlt]
  · intro h65
    rw [hs, load_signed_one, h65]
    rfl
  · intro hc
    rw [hs] at hc
    injection hc with hc
    have hd := congrArg String.data hc
    simp only [String.data_append] at hd
    have hd1 : "char(".data ++ ((std_to_string (load_signed mem v.ptr_ 1)).data ++ [')']) =
        "char(".data ++ (['A'] ++ [')']) := by
      rw [← List.append_assoc]
      exact hd
    have hd2 : (std_to_string (load_signed mem v.ptr_ 1)).data ++ [')'] = ['A'] ++ [')'] :=
      List.append_cancel_left hd1
    have hd4 := List.append_cancel_right hd2
    have hfalse : is_decimal_numeral (std_to_string (load_signed mem v.ptr_ 1)) = false := by
      unfold is_decimal_numeral
      rw [hd4]
      decide
    rw [hnum] at hfalse
    cases hfalse

/-- C19 at concrete values: the char value over the byte of `A` renders as `char(65)`, and
the char value over the byte 200 renders as `char(-56)`. -/
theorem to_string_char_code_witness :
    immutable_value.to_string ⟨fun _ => "", fun _ => ""⟩ (mem_of 16 [65, 200])
        ⟨CHAR_TYPE, 16⟩ = Except.ok "char(65)"
    ∧ immutable_value.to_string ⟨fun _ => "", fun _ => ""⟩ (mem_of 16 [65, 200])
        ⟨CHAR_TYPE, 16⟩ ≠ Except.ok "char(A)"
    ∧ immutable_value.to_string ⟨fun _ => "", fun _ => ""⟩ (mem_of 16 [65, 200])
        ⟨CHAR_TYPE, 17⟩ = Except.ok "char(-56)" :=
  ⟨(to_string_char_code ⟨fun _ => "", fun _ => ""⟩ (mem_of 16 [65, 200])
      ⟨CHAR_TYPE, 16⟩ rfl).2.2.2.1 (by decide),
   (to_string_char_code ⟨fun _ => "", fun _ => ""⟩ (mem_of 16 [65, 200])
      ⟨CHAR_TYPE, 16⟩ rfl).2.2.2.2,
   ((to_string_char_code ⟨fun _ => "", fun _ => ""⟩ (mem_of 16 [65, 200])
      ⟨CHAR_TYPE, 17⟩ rfl).1).trans (by rfl)⟩

/-- C20: for every value of the none kind, `to_string()` returns exactly `none()`, whatever
the memory holds and whatever the floating-point formatting is, so the referenced buffer is
not read; in particular a default-constructed `immutable_value`, which has the none
descriptor and a null pointer, renders as `none()` and raises no exception. -/
theorem to_string_none (fp : fp_text) (mem : Memory) (v : immutable_value)
    (h : v.type_.id = type_id.D_NONE) :
    v.to_string fp mem = Except.ok "none()"
    ∧ (∀ (fp2 : fp_text) (mem2 : Memory), v.to_string fp2 mem2 = v.to_string fp mem)
    ∧ immutable_value.default.type_ = NONE_TYPE
    ∧ immutable_value.default.ptr_ = 0
    ∧ (∀ (fp2 : fp_text) (mem2 : Memory),
        immutable_value.default.to_string fp2 mem2 = Except.ok "none()") := by
  have hs : ∀ (fp2 : fp_text) (mem2 : Memory), v.to_string fp2 mem2 = Except.ok "none()" := by
    intro fp2 mem2
    simp only [immutable_value.to_string, h]
  refine ⟨hs fp mem, ?_, rfl, rfl, ?_⟩
  · intro fp2 mem2
    rw [hs fp2 mem2, hs fp mem]
  · intro fp2 mem2
    rfl

/-- C20 at the default-constructed value and at a none value with a dangling pointer. -/
theorem to_string_none_witness :
    immutable_value.to_string ⟨fun _ => "", fun _ => ""⟩ (mem_of 16 [65, 66])
        immutable_value.default = Except.ok "none()"
    ∧ immutable_value.to_string ⟨fun _ => "", fun _ => ""⟩ (mem_of 16 [65, 66])
        ⟨NONE_TYPE, 16⟩ = Except.ok "none()" :=
  ⟨(to_string_none ⟨fun _ => "", fun _ => ""⟩ (mem_of 16 [65, 66])
      immutable_value.default rfl).1,
   (to_string_none ⟨fun _ => "", fun _ => ""⟩ (mem_of 16 [65, 66]) ⟨NONE_TYPE, 16⟩ rfl).1⟩

end dialog
